import Mathlib

/-!
# ShaderVkImpl (DiligentCore, Vulkan backend): shallow embedding

Source: `Graphics/GraphicsEngineVulkan/src/ShaderVkImpl.cpp`; further down, the
dedup containers of `Graphics/Archiver/include/ArchiverImpl.hpp` and
`Graphics/GraphicsTools/src/GraphicsUtilitiesD3D12.cpp`.

* C strings are lists of characters; the terminating NUL is the end of the list
  (`deref` reads `0` there), `++p` is `List.tail`. A character is read through
  its code; codes above 127 are neither letters, digits nor white space in the
  "C" locale.
* The width of `long` is a parameter (`LongBits`): 64 on LP64 targets, 32 on Windows.
* `std::vector<uint32_t>` is `List Nat` (every word `< 2^32`).
* `LOG_*` macros append to an explicit log; `LOG_ERROR_AND_THROW` is `Except.error`.
* Functions that live outside this translation unit (compilers, SPIR-V optimizer,
  reflection) are fields of `Env`.
-/

namespace Diligent

/-! ## C library functions used by the source (`<cctype>`, `<cstdlib>`) -/

/-- Dereference `*s` of a C string: the code of the first character, `0` at the terminator. -/
def deref : List Char → Nat
  | [] => 0
  | c :: _ => c.toNat

/-- The function `std::tolower` in the "C" locale, on character codes. -/
def tolower (c : Nat) : Nat :=
  if 65 ≤ c ∧ c ≤ 90 then c + 32 else c

/-- The function `isspace` in the "C" locale: space, `\t`, `\n`, `\v`, `\f`, `\r`. -/
def isspace (c : Nat) : Bool :=
  c == 32 || (9 ≤ c && c ≤ 13)

/-- The function `isdigit`: the characters `0` to `9`. -/
def isdigit (c : Nat) : Bool :=
  48 ≤ c && c ≤ 57

/-- Leading white space skipped by `strtol`. -/
def skipSpace : List Char → List Char
  | [] => []
  | c :: s => if isspace c.toNat then skipSpace s else c :: s

/-- Digit loop of `strtol` (base 10): accumulated value, whether a digit was
consumed, and the rest of the string. -/
def scanDigits : Nat → Bool → List Char → Nat × Bool × List Char
  | acc, any, [] => (acc, any, [])
  | acc, any, c :: s =>
    if isdigit c.toNat then scanDigits (acc * 10 + (c.toNat - 48)) true s
    else (acc, any, c :: s)

/-- The constant `LONG_MAX` for a `long` of `LongBits` bits. -/
def LONG_MAX (LongBits : Nat) : Int := 2 ^ (LongBits - 1) - 1

/-- The constant `LONG_MIN` for a `long` of `LongBits` bits. -/
def LONG_MIN (LongBits : Nat) : Int := -(2 ^ (LongBits - 1))

/-- Out-of-range results of `strtol` are clamped to `LONG_MIN`/`LONG_MAX`. -/
def clampLong (LongBits : Nat) (v : Int) : Int :=
  if v > LONG_MAX LongBits then LONG_MAX LongBits
  else if v < LONG_MIN LongBits then LONG_MIN LongBits
  else v

/-- The call `strtol(nptr, &EndPtr, 10)`: returns the value and `EndPtr`.
White space is skipped, one optional sign is read, then decimal digits; when
no digit is found the value is `0` and `EndPtr` is `nptr`. -/
def strtol (LongBits : Nat) (nptr : List Char) : Int × List Char :=
  let s := skipSpace nptr
  let neg := deref s == 45
  let s1 := if deref s == 45 || deref s == 43 then s.tail else s
  match scanDigits 0 false s1 with
  | (_, false, _) => (0, nptr)
  | (v, true, rest) => (clampLong LongBits (if neg then -(v : Int) else (v : Int)), rest)

/-- The conversion `static_cast<uint32_t>` of a `long`. -/
def toUint32 (v : Int) : Nat := (v % 2 ^ 32).toNat

/-! ## Logging -/

/-- Severity of a message passed to the debug message callback. -/
inductive Severity where
  | Warning
  | Error
  deriving DecidableEq, Repr

/-- One message emitted through a `LOG_*` macro. -/
structure LogEntry where
  Sev : Severity
  Msg : String
  deriving DecidableEq, Repr

/-! ## Reflection data (`SPIRVShaderResources`) -/

/-- Stage input attributes reported by SPIR-V reflection. -/
structure SPIRVShaderStageInputAttribs where
  Semantic : List Char
  LocationDecorationOffset : Nat
  deriving DecidableEq, Repr

/-- Message of the two `LOG_ERROR_MESSAGE` calls in `MapHLSLVertexShaderInputs`. -/
def semanticError (Semantic : List Char) : LogEntry :=
  ⟨Severity.Error, "Unable to map semantic '" ++ String.mk Semantic ++
    "' to input location: semantics must have 'ATTRIBx' format."⟩

/-- The `while` loop of `MapHLSLVertexShaderInputs`: advances `p` and `s`
while both are not at the terminator and `*p == tolower(*s)`.
Returns the final `(p, s)`. -/
def skipPrefix : List Char → List Char → List Char × List Char
  | pc :: p, sc :: s =>
    if sc.toNat ≠ 0 ∧ pc.toNat ≠ 0 ∧ pc.toNat = tolower sc.toNat then skipPrefix p s
    else (pc :: p, sc :: s)
  | p, s => (p, s)

/-- The string literal `Prefix` of `MapHLSLVertexShaderInputs`. -/
def Prefix : List Char := "attrib".toList

/-- Body of the `for` loop of `MapHLSLVertexShaderInputs` for one input:
`some Location` when the assignment `m_SPIRV[...] = Location` is reached,
`none` on either `continue`. -/
def parseSemantic (LongBits : Nat) (Semantic : List Char) : Option Nat :=
  let ps := skipPrefix Prefix Semantic
  if deref ps.1 ≠ 0 then none
  else
    let r := strtol LongBits ps.2
    if deref r.2 ≠ 0 then none
    else some (toUint32 r.1)

/-- One iteration of the loop of `MapHLSLVertexShaderInputs` on `(m_SPIRV, log)`. -/
def mapInput (LongBits : Nat) (st : List Nat × List LogEntry)
    (Input : SPIRVShaderStageInputAttribs) : List Nat × List LogEntry :=
  match parseSemantic LongBits Input.Semantic with
  | none => (st.1, st.2 ++ [semanticError Input.Semantic])
  | some Location => (st.1.set Input.LocationDecorationOffset Location, st.2)

/-- Method `ShaderVkImpl::MapHLSLVertexShaderInputs` on the stage inputs of
`m_pShaderResources`: returns the new `m_SPIRV` and the messages logged. -/
def MapHLSLVertexShaderInputs (LongBits : Nat) (Inputs : List SPIRVShaderStageInputAttribs)
    (m_SPIRV : List Nat) : List Nat × List LogEntry :=
  Inputs.foldl (mapInput LongBits) (m_SPIRV, [])

/-- Reflection data loaded from the SPIR-V by the `SPIRVShaderResources`
constructor: only what `ShaderVkImpl.cpp` reads from it. -/
structure SPIRVShaderResources where
  IsHLSLSource : Bool
  ShaderStageInputs : List SPIRVShaderStageInputAttribs
  NumResources : Nat := 0
  deriving DecidableEq, Repr

/-! ## Shader creation attributes (`ShaderCreateInfo`, `ShaderVkImpl::CreateInfo`) -/

/-- Enumeration `SHADER_COMPILER`; `OTHER` stands for every enumerator the
`switch` of the constructor does not name. -/
inductive SHADER_COMPILER where
  | DEFAULT
  | GLSLANG
  | DXC
  | OTHER (Value : Nat)
  deriving DecidableEq, Repr

/-- Enumeration `SHADER_SOURCE_LANGUAGE`. -/
inductive SHADER_SOURCE_LANGUAGE where
  | DEFAULT
  | HLSL
  | GLSL
  | GLSL_VERBATIM
  | OTHER (Value : Nat)
  deriving DecidableEq, Repr

/-- Enumeration `SHADER_TYPE`. -/
inductive SHADER_TYPE where
  | VERTEX
  | PIXEL
  | GEOMETRY
  | HULL
  | DOMAIN
  | COMPUTE
  | OTHER (Value : Nat)
  deriving DecidableEq, Repr

/-- The members of `ShaderDesc` used by the constructor. -/
structure ShaderDesc where
  Name : String
  ShaderType : SHADER_TYPE
  UseCombinedTextureSamplers : Bool := false
  CombinedSamplerSuffix : String := "_sampler"
  deriving DecidableEq, Repr

/-- The members of `ShaderCreateInfo` used in `ShaderVkImpl.cpp`. Pointers are
`Option`s (`none` is `nullptr`); `ByteCode` is the byte buffer it points to. -/
structure ShaderCreateInfo where
  FilePath : Option String := none
  Source : Option String := none
  ByteCode : Option (List Nat) := none
  ByteCodeSize : Nat := 0
  EntryPoint : String := "main"
  Macros : List (String × String) := []
  Desc : ShaderDesc
  SourceLanguage : SHADER_SOURCE_LANGUAGE := SHADER_SOURCE_LANGUAGE.DEFAULT
  ShaderCompiler : SHADER_COMPILER := SHADER_COMPILER.DEFAULT
  HLSLVersion : Nat × Nat := (0, 0)
  CompileFlags : Nat := 0
  pShaderSourceStreamFactory : Option Nat := none

/-- What a call into a shader compiler leaves behind: the SPIR-V vector it
returns (or the exception it throws) and the text it stores through
`ShaderCI.ppCompilerOutput`. -/
structure CompilerResult where
  SPIRV : Except String (List Nat)
  Output : Option String := none

/-- Interface `IDXCompiler`, as used by the constructor and `CompileShaderDXC`. -/
structure IDXCompiler where
  IsLoaded : Bool
  Compile : ShaderCreateInfo → Nat × Nat → String → CompilerResult

/-- Structure `ShaderVkImpl::CreateInfo`. -/
structure CreateInfo where
  pDXCompiler : Option IDXCompiler := none
  DeviceInfo : Nat := 0
  AdapterInfo : Nat := 0
  VkVersion : Nat := 0
  HasSpirv14 : Bool := false

/-- Enumeration `GLSLangUtils::SpirvVersion`. -/
inductive SpirvVersion where
  | Vk100
  | Vk110
  | Vk110_Spirv14
  | Vk120
  deriving DecidableEq, Repr

/-- Structure `ShaderSourceFileData`. -/
structure ShaderSourceFileData where
  Source : String
  SourceLength : Nat

/-- Structure `GLSLangUtils::GLSLtoSPIRVAttribs`. -/
structure GLSLtoSPIRVAttribs where
  ShaderType : SHADER_TYPE
  ShaderSource : String
  SourceCodeLen : Int
  Version : SpirvVersion
  Macros : Option (List (String × String))
  AssignBindings : Bool
  pShaderSourceStreamFactory : Option Nat

/-- Build configuration, platform constants and the functions defined outside
`ShaderVkImpl.cpp` that it calls. A function that may throw returns `Except`. -/
structure Env where
  /-- Width of `long` in bits (64 on LP64 targets, 32 on Windows). -/
  LongBits : Nat := 64
  DILIGENT_NO_HLSL : Bool := false
  DILIGENT_NO_GLSLANG : Bool := false
  DILIGENT_DEVELOPMENT : Bool := true
  /-- True when `PLATFORM_MACOS || PLATFORM_IOS || PLATFORM_TVOS`. -/
  PLATFORM_APPLE : Bool := false
  /-- Value of the flag `SHADER_COMPILE_FLAG_SKIP_REFLECTION`. -/
  SHADER_COMPILE_FLAG_SKIP_REFLECTION : Nat := 2
  /-- The call `OptimizeSPIRV(SPIRV, SPV_ENV_MAX, SPIRV_OPTIMIZATION_FLAG_LEGALIZATION)`. -/
  OptimizeSPIRV : List Nat → Except String (List Nat)
  /-- The call `GLSLangUtils::HLSLtoSPIRV(ShaderCI, Version, ExtraDefinitions, ppCompilerOutput)`. -/
  HLSLtoSPIRV : ShaderCreateInfo → SpirvVersion → String → CompilerResult
  /-- The call `GLSLangUtils::GLSLtoSPIRV(Attribs)`. -/
  GLSLtoSPIRV : GLSLtoSPIRVAttribs → CompilerResult
  ReadShaderSourceFile : ShaderCreateInfo → Except String ShaderSourceFileData
  /-- The call `BuildGLSLSourceString(ShaderCI, DeviceInfo, AdapterInfo, TargetGLSLCompiler::glslang, VulkanDefine)`. -/
  BuildGLSLSourceString : ShaderCreateInfo → Nat → Nat → String → Except String String
  /-- Constructor of `SPIRVShaderResources`
  `(SPIRV, m_Desc, CombinedSamplerSuffix, LoadShaderInputs)`: the reflection
  data and the entry point it stores into `m_EntryPoint`. -/
  LoadResources : List Nat → ShaderDesc → Option String → Bool →
    Except String (SPIRVShaderResources × String)

/-- The constant `VK_API_VERSION_1_1`, that is `VK_MAKE_API_VERSION(0, 1, 1, 0)`. -/
def VK_API_VERSION_1_1 : Nat := 4198400

/-- The constant `VK_API_VERSION_1_2`, that is `VK_MAKE_API_VERSION(0, 1, 2, 0)`. -/
def VK_API_VERSION_1_2 : Nat := 4202496

/-- The string constant `VulkanDefine`. -/
def VulkanDefine (env : Env) : String :=
  "#ifndef VULKAN\n#   define VULKAN 1\n#endif\n" ++
    (if env.PLATFORM_APPLE then "#ifndef METAL\n#   define METAL 1\n#endif\n" else "")

/-- Result of running a piece of the constructor: the value or the exception
thrown, the messages logged, and the text stored through `ppCompilerOutput`. -/
structure Outcome (α : Type) where
  Result : Except String α
  Log : List LogEntry := []
  CompilerOutput : Option String := none

/-! ## Compilation (`CompileShaderDXC`, `CompileShaderGLSLang`) -/

/-- Message of the `LOG_ERROR` in `CompileShaderDXC`. -/
def legalizeFailed : LogEntry :=
  ⟨Severity.Error, "Failed to legalize SPIR-V shader generated from HLSL. This may result in undefined behavior."⟩

/-- Message of the `LOG_WARNING_MESSAGE` in `CompileShaderDXC` (`DILIGENT_NO_HLSL` builds). -/
def legalizeSkipped : LogEntry :=
  ⟨Severity.Warning, "Unable to legalize SPIRV bytecode generated by DXC as the engine was built with DILIGENT_NO_HLSL option. The byte code may be invalid."⟩

/-- Function `CompileShaderDXC`. A null `pDXCompiler` is excluded by the
`VERIFY_EXPR` at its head (the constructor only calls it with a loaded
compiler); the dereference of a null pointer is reported as an error here. -/
def CompileShaderDXC (env : Env) (ShaderCI : ShaderCreateInfo) (VkShaderCI : CreateInfo) :
    Outcome (List Nat) :=
  match VkShaderCI.pDXCompiler with
  | none => { Result := Except.error "pDXCompiler is null" }
  | some pDXCompiler =>
    let r := pDXCompiler.Compile ShaderCI ShaderCI.HLSLVersion (VulkanDefine env)
    match r.SPIRV with
    | Except.error e => { Result := Except.error e, CompilerOutput := r.Output }
    | Except.ok SPIRV =>
      if env.DILIGENT_NO_HLSL then
        { Result := Except.ok SPIRV, Log := [legalizeSkipped], CompilerOutput := r.Output }
      else
        match env.OptimizeSPIRV SPIRV with
        | Except.error e => { Result := Except.error e, CompilerOutput := r.Output }
        | Except.ok LegalizedSPIRV =>
          if LegalizedSPIRV ≠ [] then
            { Result := Except.ok LegalizedSPIRV, CompilerOutput := r.Output }
          else
            { Result := Except.ok SPIRV, Log := [legalizeFailed], CompilerOutput := r.Output }

/-- The conversion `static_cast<int>` of a `Uint32`. -/
def toInt32 (n : Nat) : Int :=
  if n % 2 ^ 32 < 2 ^ 31 then (n % 2 ^ 32 : Nat) else ((n % 2 ^ 32 : Nat) : Int) - 2 ^ 32

/-- Target version chosen in `CompileShaderGLSLang` for GLSL sources. -/
def glslTargetVersion (VkShaderCI : CreateInfo) : SpirvVersion :=
  if VkShaderCI.VkVersion ≥ VK_API_VERSION_1_2 then SpirvVersion.Vk120
  else if VkShaderCI.VkVersion ≥ VK_API_VERSION_1_1 then
    (if VkShaderCI.HasSpirv14 then SpirvVersion.Vk110_Spirv14 else SpirvVersion.Vk110)
  else SpirvVersion.Vk100

/-- The `SourceData` and `Macros` prepared in `CompileShaderGLSLang` for a
source that is not HLSL. -/
def glslSourceData (env : Env) (ShaderCI : ShaderCreateInfo) (VkShaderCI : CreateInfo) :
    Except String (ShaderSourceFileData × Option (List (String × String))) :=
  if ShaderCI.SourceLanguage = SHADER_SOURCE_LANGUAGE.GLSL_VERBATIM then
    match env.ReadShaderSourceFile ShaderCI with
    | Except.error e => Except.error e
    | Except.ok SourceData => Except.ok (SourceData, some ShaderCI.Macros)
  else
    match env.BuildGLSLSourceString ShaderCI VkShaderCI.DeviceInfo VkShaderCI.AdapterInfo
        (VulkanDefine env) with
    | Except.error e => Except.error e
    | Except.ok GLSLSourceString =>
      Except.ok (⟨GLSLSourceString, GLSLSourceString.length % 2 ^ 32⟩, none)

/-- Message thrown by `CompileShaderGLSLang` in `DILIGENT_NO_GLSLANG` builds. -/
def noGLSLang : String :=
  "Diligent engine was not linked with glslang, use DXC or precompiled SPIRV bytecode."

/-- Function `CompileShaderGLSLang`. -/
def CompileShaderGLSLang (env : Env) (ShaderCI : ShaderCreateInfo) (VkShaderCI : CreateInfo) :
    Outcome (List Nat) :=
  if env.DILIGENT_NO_GLSLANG then { Result := Except.error noGLSLang }
  else if ShaderCI.SourceLanguage = SHADER_SOURCE_LANGUAGE.HLSL then
    let r := env.HLSLtoSPIRV ShaderCI SpirvVersion.Vk100 (VulkanDefine env)
    { Result := r.SPIRV, CompilerOutput := r.Output }
  else
    match glslSourceData env ShaderCI VkShaderCI with
    | Except.error e => { Result := Except.error e }
    | Except.ok (SourceData, Macros) =>
      let r := env.GLSLtoSPIRV
        { ShaderType := ShaderCI.Desc.ShaderType
          ShaderSource := SourceData.Source
          SourceCodeLen := toInt32 SourceData.SourceLength
          Version := glslTargetVersion VkShaderCI
          Macros := Macros
          AssignBindings := true
          pShaderSourceStreamFactory := ShaderCI.pShaderSourceStreamFactory }
      { Result := r.SPIRV, CompilerOutput := r.Output }

/-- Modelled from the spec: the function `GLSLangUtils::HLSLtoSPIRV`, which is
not among the sources. "Vulkan | HLSL, GLSL, GLSL-verbatim, SPIR-V bytecode |
SPIR-V (HLSL path must legalize)": the SPIR-V produced by the glslang front
end `FrontEnd`, legalized by `Legalize`; the compiler output is the one of the
front end. -/
def GLSLangUtils.HLSLtoSPIRV
    (FrontEnd : ShaderCreateInfo → SpirvVersion → String → CompilerResult)
    (Legalize : List Nat → Except String (List Nat))
    (ShaderCI : ShaderCreateInfo) (Version : SpirvVersion) (ExtraDefinitions : String) :
    CompilerResult :=
  let r := FrontEnd ShaderCI Version ExtraDefinitions
  { SPIRV :=
      match r.SPIRV with
      | Except.error e => Except.error e
      | Except.ok SPIRV => Legalize SPIRV
    Output := r.Output }

/-! ## The constructor `ShaderVkImpl::ShaderVkImpl` -/

/-- The data members of `ShaderVkImpl` set by the constructor. -/
structure ShaderVkImpl where
  m_Desc : ShaderDesc
  m_SPIRV : List Nat
  m_EntryPoint : String
  m_pShaderResources : Option SPIRVShaderResources
  deriving DecidableEq, Repr

/-- The macro `DEV_CHECK_ERR(Expr, Msg)`: in development builds a failed check
logs an error; it never changes the control flow. -/
def DEV_CHECK_ERR (env : Env) (Expr : Bool) (Msg : String) : List LogEntry :=
  if env.DILIGENT_DEVELOPMENT && !Expr then [⟨Severity.Error, Msg⟩] else []

/-- Message of the `LOG_WARNING_MESSAGE` of the constructor. -/
def dxcNotLoaded : LogEntry :=
  ⟨Severity.Warning, "DX Compiler is not loaded. Using default shader compiler"⟩

/-- The local `ShaderCompiler` after the `if (ShaderCompiler == SHADER_COMPILER_DXC)`
block (source lines 171-180), with the warning it may log. -/
def selectCompiler (ShaderCI : ShaderCreateInfo) (VkShaderCI : CreateInfo) :
    SHADER_COMPILER × List LogEntry :=
  if ShaderCI.ShaderCompiler = SHADER_COMPILER.DXC then
    match VkShaderCI.pDXCompiler with
    | none => (SHADER_COMPILER.DEFAULT, [dxcNotLoaded])
    | some pDXCompiler =>
      if !pDXCompiler.IsLoaded then (SHADER_COMPILER.DEFAULT, [dxcNotLoaded])
      else (SHADER_COMPILER.DXC, [])
  else (ShaderCI.ShaderCompiler, [])

/-- Message thrown when the compiled SPIR-V is empty. -/
def failedToCompile (Name : String) : String :=
  "Failed to compile shader '" ++ Name ++ "'"

/-- The `switch (ShaderCompiler)` of the constructor (source lines 182-195)
on the compiler left by `selectCompiler`. -/
def runCompiler (env : Env) (ShaderCI : ShaderCreateInfo) (VkShaderCI : CreateInfo) :
    Outcome (List Nat) :=
  match (selectCompiler ShaderCI VkShaderCI).1 with
  | SHADER_COMPILER.DXC => CompileShaderDXC env ShaderCI VkShaderCI
  | SHADER_COMPILER.DEFAULT => CompileShaderGLSLang env ShaderCI VkShaderCI
  | SHADER_COMPILER.GLSLANG => CompileShaderGLSLang env ShaderCI VkShaderCI
  | SHADER_COMPILER.OTHER _ => { Result := Except.error "Unsupported shader compiler" }

/-- The branch `Source != nullptr || FilePath != nullptr` of the constructor
(source lines 169-200): the value of `m_SPIRV`. -/
def compileFromSource (env : Env) (ShaderCI : ShaderCreateInfo) (VkShaderCI : CreateInfo) :
    Outcome (List Nat) :=
  let chk := DEV_CHECK_ERR env ShaderCI.ByteCode.isNone
    "'ByteCode' must be null when shader is created from source code or a file"
  let sel := selectCompiler ShaderCI VkShaderCI
  let c := runCompiler env ShaderCI VkShaderCI
  match c.Result with
  | Except.error e =>
    { Result := Except.error e, Log := chk ++ sel.2 ++ c.Log, CompilerOutput := c.CompilerOutput }
  | Except.ok m_SPIRV =>
    if m_SPIRV = [] then
      { Result := Except.error (failedToCompile ShaderCI.Desc.Name)
        Log := chk ++ sel.2 ++ c.Log, CompilerOutput := c.CompilerOutput }
    else
      { Result := Except.ok m_SPIRV, Log := chk ++ sel.2 ++ c.Log
        CompilerOutput := c.CompilerOutput }

/-- The 32-bit words stored in a byte sequence (host byte order, little endian). -/
def wordsOfBytes : List Nat → List Nat
  | b0 :: b1 :: b2 :: b3 :: rest =>
    (b0 + 256 * b1 + 65536 * b2 + 16777216 * b3) :: wordsOfBytes rest
  | _ => []

/-- The bytes of a sequence of 32-bit words (host byte order, little endian). -/
def bytesOfWords : List Nat → List Nat
  | [] => []
  | w :: ws => w % 256 :: w / 256 % 256 :: w / 65536 % 256 :: w / 16777216 % 256 :: bytesOfWords ws

/-- The call `memcpy(dst, src, n)` on byte sequences. -/
def memcpy (dst src : List Nat) (n : Nat) : List Nat :=
  src.take n ++ dst.drop n

/-- The branch `ByteCode != nullptr` of the constructor (source lines 204-207):
`m_SPIRV.resize(ByteCodeSize / 4)` followed by the `memcpy` of `ByteCodeSize`
bytes; the vector keeps its `ByteCodeSize / 4` words. -/
def copyByteCode (env : Env) (ByteCode : List Nat) (ByteCodeSize : Nat) : Outcome (List Nat) :=
  let chk1 := DEV_CHECK_ERR env (ByteCodeSize != 0) "ByteCodeSize must not be 0"
  let chk2 := DEV_CHECK_ERR env (ByteCodeSize % 4 == 0)
    ("Byte code size (" ++ toString ByteCodeSize ++ ") is not multiple of 4")
  let resized := List.replicate (4 * (ByteCodeSize / 4)) 0
  { Result := Except.ok ((wordsOfBytes (memcpy resized ByteCode ByteCodeSize)).take (ByteCodeSize / 4))
    Log := chk1 ++ chk2 }

/-- Message thrown when neither source, file nor byte code is given. -/
def noShaderSource : String :=
  "Shader source must be provided through one of the 'Source', 'FilePath' or 'ByteCode' members"

/-- The first `if`/`else if`/`else` of the constructor (source lines 167-212):
the value of `m_SPIRV`. -/
def initSPIRV (env : Env) (ShaderCI : ShaderCreateInfo) (VkShaderCI : CreateInfo) :
    Outcome (List Nat) :=
  if ShaderCI.Source.isSome || ShaderCI.FilePath.isSome then
    compileFromSource env ShaderCI VkShaderCI
  else
    match ShaderCI.ByteCode with
    | some ByteCode => copyByteCode env ByteCode ShaderCI.ByteCodeSize
    | none => { Result := Except.error noShaderSource }

/-- The block "Load shader resources" of the constructor (source lines 218-243).
The debug assertion `VERIFY_EXPR` on the entry point has no effect on the
object built and is left out. -/
def loadShaderResources (env : Env) (ShaderCI : ShaderCreateInfo) (m_SPIRV : List Nat) :
    Outcome ShaderVkImpl :=
  let m_Desc := ShaderCI.Desc
  if ShaderCI.CompileFlags &&& env.SHADER_COMPILE_FLAG_SKIP_REFLECTION = 0 then
    let LoadShaderInputs : Bool := m_Desc.ShaderType = SHADER_TYPE.VERTEX
    match env.LoadResources m_SPIRV m_Desc
      (if m_Desc.UseCombinedTextureSamplers then some m_Desc.CombinedSamplerSuffix else none)
      LoadShaderInputs with
    | Except.error e => { Result := Except.error e }
    | Except.ok (Resources, EntryPoint) =>
      if LoadShaderInputs && Resources.IsHLSLSource then
        let r := MapHLSLVertexShaderInputs env.LongBits Resources.ShaderStageInputs m_SPIRV
        { Result := Except.ok ⟨m_Desc, r.1, EntryPoint, some Resources⟩, Log := r.2 }
      else
        { Result := Except.ok ⟨m_Desc, m_SPIRV, EntryPoint, some Resources⟩ }
  else
    { Result := Except.ok ⟨m_Desc, m_SPIRV, ShaderCI.EntryPoint, none⟩ }

/-- The constructor `ShaderVkImpl::ShaderVkImpl`: the object built, or the
exception that leaves no object. -/
def ShaderVkImpl.create (env : Env) (ShaderCI : ShaderCreateInfo) (VkShaderCI : CreateInfo) :
    Outcome ShaderVkImpl :=
  let c := initSPIRV env ShaderCI VkShaderCI
  match c.Result with
  | Except.error e => { Result := Except.error e, Log := c.Log, CompilerOutput := c.CompilerOutput }
  | Except.ok m_SPIRV =>
    let r := loadShaderResources env ShaderCI m_SPIRV
    { Result := r.Result, Log := c.Log ++ r.Log, CompilerOutput := c.CompilerOutput }

/-! ## Resource queries (`ShaderVkImpl::GetResourceDesc`) -/

/-- Structure `ShaderResourceDesc`. -/
structure ShaderResourceDesc where
  Name : String := ""
  ResourceType : Nat := 0
  ArraySize : Nat := 0
  deriving DecidableEq, Repr

/-- Method `ShaderVkImpl::GetResourceDesc` (source lines 281-290). `ResCount` is
the value of `GetResourceCount()`, which is declared in the header, and
`GetResource Index` is the description
`m_pShaderResources->GetResource(Index).GetResourceDesc()`. `ResourceDesc` is
the value of the reference argument on entry; the result is its value on exit,
the messages logged and the indices of the resources accessed. -/
def ShaderVkImpl.GetResourceDesc (env : Env) (ResCount : Nat)
    (GetResource : Nat → ShaderResourceDesc) (Index : Nat) (ResourceDesc : ShaderResourceDesc) :
    ShaderResourceDesc × List LogEntry × List Nat :=
  let chk := DEV_CHECK_ERR env (decide (Index < ResCount))
    ("Resource index (" ++ toString Index ++ ") is out of range")
  if Index < ResCount then (GetResource Index, chk, [Index])
  else (ResourceDesc, chk, [])

/-! ## Bounds of the byte code copy -/

/-- The bytes owned by `m_SPIRV` after `m_SPIRV.resize(ByteCodeSize / 4)`
(source line 206): four zero bytes for each of the `ByteCodeSize / 4` words. -/
def resizedBytes (ByteCodeSize : Nat) : List Nat :=
  List.replicate (4 * (ByteCodeSize / 4)) 0

/-- Whether `memcpy(dst, src, n)` writes inside `dst` only: the `n` bytes
copied do not exceed the size of the destination. -/
def memcpyInBounds (dst : List Nat) (n : Nat) : Bool :=
  decide (n ≤ dst.length)

/-! ## Archiver (`Graphics/Archiver/include/ArchiverImpl.hpp`) -/

/-- Functor `ArchiverImpl::SerializablePRSHasher` (source lines 135-141):
`PRS ? PRS->CalcHash() : 0`. A `RefCntAutoPtr` is an `Option` (`none` is null);
`CalcHash` of the signature is a parameter. -/
def SerializablePRSHasher {σ : Type} (CalcHash : σ → Nat) (PRS : Option σ) : Nat :=
  match PRS with
  | some Signature => CalcHash Signature
  | none => 0

/-- Functor `ArchiverImpl::SerializablePRSEqual` (source lines 142-152). The
structural `operator==` of the signatures is the parameter `Equal`; the last
`return` dereferences both pointers, which are non-null there. -/
def SerializablePRSEqual {σ : Type} (Equal : σ → σ → Bool) (Lhs Rhs : Option σ) : Bool :=
  if Lhs.isNone != Rhs.isNone then false
  else if Lhs.isNone && Rhs.isNone then true
  else
    match Lhs, Rhs with
    | some L, some R => Equal L R
    | _, _ => false

/-- Modelled from the spec: class `SerializedMemory` (`SerializedMemory.hpp` is
not among the sources). "Serialized Blob: immutable byte sequence with cached
64-bit hash. Equality is byte-wise." -/
structure SerializedMemory where
  Bytes : List (Fin 256)
  deriving DecidableEq

/-- Modelled from the spec: `SerializedMemory::operator==`, which is not among
the sources: "Equality is byte-wise." -/
def SerializedMemory.equals (Lhs Rhs : SerializedMemory) : Bool :=
  decide (Lhs.Bytes = Rhs.Bytes)

/-- Structure `ArchiverImpl::ShaderKey` (source lines 168-178): a shared pointer
to the serialized shader. -/
structure ShaderKey where
  Mem : SerializedMemory
  deriving DecidableEq

/-- Operator `ShaderKey::operator==` (source line 172): `*Mem == *Rhs.Mem`. -/
def ShaderKey.equals (Lhs Rhs : ShaderKey) : Bool :=
  SerializedMemory.equals Lhs.Mem Rhs.Mem

/-- Functor `ShaderKey::Hash` (source lines 174-177): `Key.Mem->CalcHash()`.
The 64-bit hash function of `SerializedMemory` is a parameter. -/
def ShaderKey.Hash (CalcHash : SerializedMemory → Fin (2 ^ 64)) (Key : ShaderKey) : Fin (2 ^ 64) :=
  CalcHash Key.Mem

/-- The container `std::unordered_map<ShaderKey, size_t, ShaderKey::Hash>` as
the sequence of its entries. -/
abbrev ShaderIndexMap := List (ShaderKey × Nat)

/-- Lookup in the map with `ShaderKey::operator==` as key equality. -/
def ShaderIndexMap.find (Map : ShaderIndexMap) (Key : ShaderKey) : Option Nat :=
  (List.find? (fun e => ShaderKey.equals e.1 Key) Map).map Prod.snd

/-- Structure `ArchiverImpl::PerDeviceShaders` (source lines 180-184). -/
structure PerDeviceShaders where
  List : List ShaderKey
  Map : ShaderIndexMap

/-- Modelled from the spec: the interning step of
`ArchiverImpl::SerializeShaderBytecode`, whose body is not among the sources
(only its declaration, source lines 238-242). "For shaders: an ordered
per-backend list plus a hash map Blob to index; intern(blob) returns existing
index or appends." -/
def internShader (Shaders : PerDeviceShaders) (Key : ShaderKey) : PerDeviceShaders × Nat :=
  match Shaders.Map.find Key with
  | some Index => (Shaders, Index)
  | none =>
    (⟨Shaders.List ++ [Key], Shaders.Map ++ [(Key, Shaders.List.length)]⟩, Shaders.List.length)

/-- A sequence of interning steps: the final index and the indices returned
(the `ShaderIndices` handed to the pipeline states). -/
def internShaders (Shaders : PerDeviceShaders) : List ShaderKey → PerDeviceShaders × List Nat
  | [] => (Shaders, [])
  | Key :: Keys =>
    let r := internShader Shaders Key
    let rs := internShaders r.1 Keys
    (rs.1, r.2 :: rs.2)

/-- Modelled from the spec: `ArchiverImpl::GetDefaultPRSName`, whose body is not
among the sources (only its declaration, source line 280). "Synthesized
defaults carry a name derived from the PSO: Default Signature of PSO
'<pso-name>'." -/
def GetDefaultPRSName (PSOName : String) : String :=
  "Default Signature of PSO '" ++ PSOName ++ "'"

/-! ## D3D12 utilities (`Graphics/GraphicsTools/src/GraphicsUtilitiesD3D12.cpp`) -/

/-- Structure `ShaderVersion`; `Version = {}` is the zero version. -/
structure ShaderVersion where
  Major : Nat := 0
  Minor : Nat := 0
  deriving DecidableEq, Repr

/-- Enumeration `RENDER_DEVICE_TYPE`. -/
inductive RENDER_DEVICE_TYPE where
  | UNDEFINED
  | D3D11
  | D3D12
  | GL
  | GLES
  | VULKAN
  | METAL
  deriving DecidableEq, Repr

/-- Interface `IRenderDeviceD3D12`: the value of `GetMaxShaderVersion()`. -/
structure IRenderDeviceD3D12 where
  MaxShaderVersion : ShaderVersion
  deriving DecidableEq, Repr

/-- Interface `IRenderDevice`, as seen by `GetRenderDeviceD3D12MaxShaderVersion`:
`GetDeviceInfo().Type` and the result of querying `IID_RenderDeviceD3D12`
(`none` when the query fails). -/
structure IRenderDevice where
  DeviceType : RENDER_DEVICE_TYPE
  QueryD3D12 : Option IRenderDeviceD3D12
  deriving DecidableEq, Repr

/-- Function `GetRenderDeviceD3D12MaxShaderVersion` (source lines 40-67).
The argument `_Version` is the value of the reference `Version` on entry, which
the first statement `Version = {}` overwrites; the result is the value
returned, `Version` on exit and the messages of the `UNEXPECTED` macro. -/
def GetRenderDeviceD3D12MaxShaderVersion (DILIGENT_D3D12_SUPPORTED : Bool)
    (pDevice : Option IRenderDevice) (_Version : ShaderVersion) :
    Bool × ShaderVersion × List String :=
  let Version0 : ShaderVersion := {}
  if DILIGENT_D3D12_SUPPORTED then
    match pDevice with
    | none => (false, Version0, ["pDevice must not be null"])
    | some Device =>
      if Device.DeviceType ≠ RENDER_DEVICE_TYPE.D3D12 then (false, Version0, [])
      else
        match Device.QueryD3D12 with
        | none => (false, Version0, ["Failed to query the IRenderDeviceD3D12 interface"])
        | some pDeviceD3D12 => (true, pDeviceD3D12.MaxShaderVersion, [])
  else (false, Version0, [])

/-- The C export `Diligent_GetRenderDeviceD3D12MaxShaderVersion` (source lines 72-78). -/
def Diligent_GetRenderDeviceD3D12MaxShaderVersion (DILIGENT_D3D12_SUPPORTED : Bool)
    (pDevice : Option IRenderDevice) (Version : ShaderVersion) :
    Bool × ShaderVersion × List String :=
  GetRenderDeviceD3D12MaxShaderVersion DILIGENT_D3D12_SUPPORTED pDevice Version

/-! ## Specification-side notions -/

/-- Value of a string of decimal digits, most significant digit first. -/
def decimalValue (digits : List Char) : Nat :=
  Nat.ofDigits 10 (digits.reverse.map fun c => c.toNat - 48)

/-- Value of an optionally signed string of decimal digits: negated when the
sign is a minus. -/
def signedDecimalValue (sign digits : List Char) : Int :=
  if sign = "-".toList then -(decimalValue digits : Int) else (decimalValue digits : Int)

/-- Consistency of a shader index: the map sends a key to an index exactly
when the list holds that key at that index. -/
def shadersConsistent (Shaders : PerDeviceShaders) : Prop :=
  ∀ (Key : ShaderKey) (Index : Nat),
    Shaders.Map.find Key = some Index ↔ Shaders.List[Index]? = some Key

/-- The location written last at the word `i` by the loop over `Inputs`: the
value of the last input with an accepted semantic whose
`LocationDecorationOffset` is `i`, if there is one. -/
def lastWrite (LongBits : Nat) : List SPIRVShaderStageInputAttribs → Nat → Option Nat
  | [], _ => none
  | Input :: Inputs, i =>
    match lastWrite LongBits Inputs i with
    | some Location => some Location
    | none =>
      if Input.LocationDecorationOffset = i then parseSemantic LongBits Input.Semantic else none

/-! ## Concrete inputs used in witnesses and counterexamples -/

/-- An environment with stub compilers: both glslang entry points return a
four-word module, the legalizer is the identity and reflection reports a GLSL
module without stage inputs. -/
def exampleEnv : Env :=
  { OptimizeSPIRV := fun SPIRV => Except.ok SPIRV
    HLSLtoSPIRV := fun _ _ _ => { SPIRV := Except.ok [119734787, 65536, 0, 0] }
    GLSLtoSPIRV := fun _ => { SPIRV := Except.ok [119734787, 65536, 0, 0] }
    ReadShaderSourceFile := fun ShaderCI =>
      Except.ok ⟨ShaderCI.Source.getD "", (ShaderCI.Source.getD "").length⟩
    BuildGLSLSourceString := fun ShaderCI _ _ Defs => Except.ok (Defs ++ ShaderCI.Source.getD "")
    LoadResources := fun _ _ _ _ => Except.ok (⟨false, [], 0⟩, "main") }

/-- The environment `exampleEnv` with a reflection that reports HLSL source and
the given stage inputs (for shaders whose inputs are loaded). -/
def hlslEnv (Inputs : List SPIRVShaderStageInputAttribs) : Env :=
  { exampleEnv with
    LoadResources := fun _ _ _ LoadShaderInputs =>
      Except.ok (⟨true, if LoadShaderInputs then Inputs else [], 0⟩, "main") }

/-- An HLSL vertex shader given as source text. -/
def vertexShaderCI : ShaderCreateInfo :=
  { Source := some "float4 main(float3 Pos : POSITION) : SV_Position"
    Desc := { Name := "VS", ShaderType := SHADER_TYPE.VERTEX }
    SourceLanguage := SHADER_SOURCE_LANGUAGE.HLSL }

/-- A vertex shader given as the two-word byte code `0x07230203, 0x00010000`. -/
def byteCodeCI : ShaderCreateInfo :=
  { ByteCode := some (bytesOfWords [119734787, 65536])
    ByteCodeSize := 8
    Desc := { Name := "VS", ShaderType := SHADER_TYPE.VERTEX } }

/-- The environment in which reflection reports HLSL source with the single
stage input "ATTRIB3" whose location word is word 1 of the module. -/
def attrib3Env : Env := hlslEnv [⟨"ATTRIB3".toList, 1⟩]

/-- An HLSL vertex shader given as source text, to be compiled with DXC,
reflection skipped. -/
def dxcShaderCI : ShaderCreateInfo :=
  { vertexShaderCI with ShaderCompiler := SHADER_COMPILER.DXC, CompileFlags := 2 }

/-- A loaded DX compiler that returns a three-word module. -/
def dxcStub : IDXCompiler :=
  { IsLoaded := true
    Compile := fun _ _ _ => { SPIRV := Except.ok [119734787, 65536, 1] } }

/-- The environment `exampleEnv` with a legalizer that fails (empty result). -/
def failedLegalizeEnv : Env :=
  { exampleEnv with OptimizeSPIRV := fun _ => Except.ok [] }

/-- The environment `exampleEnv` with an HLSL compiler that reports an error:
empty SPIR-V and a message in the compiler output. -/
def failedCompileEnv : Env :=
  { exampleEnv with
    HLSLtoSPIRV := fun _ _ _ =>
      { SPIRV := Except.ok [], Output := some "error: undeclared identifier" } }

/-- Creation attributes whose DX compiler is `dxcStub`. -/
def dxcCreateInfo : CreateInfo :=
  { pDXCompiler := some dxcStub }

/-- An HLSL pixel shader given as source text. -/
def pixelShaderCI : ShaderCreateInfo :=
  { Source := some "float4 main() : SV_Target"
    Desc := { Name := "PS", ShaderType := SHADER_TYPE.PIXEL }
    SourceLanguage := SHADER_SOURCE_LANGUAGE.HLSL }

/-- A GLSL pixel shader given as source text. -/
def glslShaderCI : ShaderCreateInfo :=
  { Source := some "void main()"
    Desc := { Name := "PS", ShaderType := SHADER_TYPE.PIXEL }
    SourceLanguage := SHADER_SOURCE_LANGUAGE.GLSL }

/-- The environment `exampleEnv` with a GLSL compiler whose one-word output
tells the target version it was asked for. -/
def versionProbeEnv : Env :=
  { exampleEnv with
    GLSLtoSPIRV := fun Attribs =>
      { SPIRV := Except.ok [match Attribs.Version with
          | SpirvVersion.Vk100 => 100
          | SpirvVersion.Vk110 => 110
          | SpirvVersion.Vk110_Spirv14 => 114
          | SpirvVersion.Vk120 => 120] } }

theorem toNat_ofNat_of_lt (n : Nat) (h : n < 55296) : (Char.ofNat n).toNat = n := by
  have hv : n.isValidChar := Or.inl h
  simp [Char.ofNat, hv, Char.ofNatAux, Char.toNat, UInt32.toNat]

theorem tolower_toNat (c : Char) : tolower c.toNat = c.toLower.toNat := by
  unfold tolower Char.toLower
  simp only [ge_iff_le]
  split
  · rw [toNat_ofNat_of_lt]; omega
  · rfl

theorem isDigit_bounds (c : Char) (h : c.isDigit = true) : 48 ≤ c.toNat ∧ c.toNat ≤ 57 := by
  simp only [Char.isDigit, Bool.and_eq_true, decide_eq_true_eq, ge_iff_le, UInt32.le_def,
    BitVec.le_def] at h
  exact h

theorem isdigit_of_isDigit (c : Char) (h : c.isDigit = true) : isdigit c.toNat = true := by
  have hb := isDigit_bounds c h
  simp [isdigit, hb.1, hb.2]

theorem skipPrefix_nil (s : List Char) : skipPrefix [] s = ([], s) := by
  cases s <;> simp [skipPrefix]

theorem skipPrefix_of_toLower (p : List Char) (hp : ∀ c ∈ p, c.toNat ≠ 0) :
    ∀ (w rest : List Char), w.map Char.toLower = p → skipPrefix p (w ++ rest) = ([], rest) := by
  induction p with
  | nil =>
    intro w rest hw
    have : w = [] := by simpa using hw
    subst this
    simpa using skipPrefix_nil rest
  | cons pc p ih =>
    intro w rest hw
    cases w with
    | nil => simp at hw
    | cons sc w =>
      simp only [List.map_cons, List.cons.injEq] at hw
      have hpc : pc.toNat ≠ 0 := hp pc (List.mem_cons_self _ _)
      have hlow : tolower sc.toNat = pc.toNat := by rw [tolower_toNat, hw.1]
      have hsc : sc.toNat ≠ 0 := by
        intro h0
        rw [h0] at hlow
        exact hpc (by simpa [tolower] using hlow.symm)
      have ih2 := ih (fun c hc => hp c (List.mem_cons_of_mem _ hc)) w rest hw.2
      simp only [List.cons_append, skipPrefix, hsc, hpc, hlow, ne_eq, not_false_eq_true,
        and_self, if_true]
      exact ih2

theorem decimalValue_cons (c : Char) (ds : List Char) :
    decimalValue (c :: ds) = (c.toNat - 48) * 10 ^ ds.length + decimalValue ds := by
  simp [decimalValue, Nat.ofDigits_append, Nat.ofDigits_singleton]
  ring

theorem scanDigits_digits (ds : List Char) (hd : ∀ c ∈ ds, c.isDigit = true) :
    ∀ (acc : Nat) (any : Bool),
      scanDigits acc any ds = (acc * 10 ^ ds.length + decimalValue ds, any || !ds.isEmpty, []) := by
  induction ds with
  | nil => intro acc any; simp [scanDigits, decimalValue]
  | cons c ds ih =>
    intro acc any
    have hc := isdigit_of_isDigit c (hd c (List.mem_cons_self _ _))
    have ih2 := ih (fun d hdm => hd d (List.mem_cons_of_mem _ hdm)) (acc * 10 + (c.toNat - 48)) true
    simp only [scanDigits, hc, if_true, ih2, decimalValue_cons, List.length_cons,
      List.isEmpty_cons, Bool.not_false, Bool.or_true, Bool.true_or, Prod.mk.injEq, and_true]
    ring

theorem strtol_digits (LongBits : Nat) (hLong : 32 ≤ LongBits) (ds : List Char)
    (hne : ds ≠ []) (hd : ∀ c ∈ ds, c.isDigit = true) (hval : decimalValue ds < 2 ^ 31) :
    strtol LongBits ds = (((decimalValue ds : Nat) : Int), []) := by
  cases ds with
  | nil => exact absurd rfl hne
  | cons c ds =>
    have hb := isDigit_bounds c (hd c (List.mem_cons_self _ _))
    have hsp : isspace c.toNat = false := by
      simp only [isspace, Bool.or_eq_false_iff, beq_eq_false_iff_ne, ne_eq, Bool.and_eq_false_imp,
        decide_eq_true_eq, decide_eq_false_iff_not]
      omega
    have h45 : (c.toNat == 45) = false := by simp; omega
    have h43 : (c.toNat == 43) = false := by simp; omega
    have hs := scanDigits_digits (c :: ds) hd 0 false
    have hpow : (2 : Int) ^ 31 ≤ 2 ^ (LongBits - 1) :=
      pow_le_pow_right₀ (by norm_num) (by omega)
    have hv : ((decimalValue (c :: ds) : Nat) : Int) < 2 ^ 31 := by exact_mod_cast hval
    have hnn : (0 : Int) ≤ ((decimalValue (c :: ds) : Nat) : Int) := Int.natCast_nonneg _
    simp only [strtol, skipSpace, hsp, deref, h45, h43, Bool.or_self, hs, Bool.false_eq_true,
      if_false, zero_mul, zero_add, List.isEmpty_cons, Bool.not_false, Bool.or_true]
    simp only [clampLong, LONG_MAX, LONG_MIN, Prod.mk.injEq, and_true]
    rw [if_neg (by omega), if_neg (by omega)]

theorem parseSemantic_attrib (LongBits : Nat) (hLong : 32 ≤ LongBits) (word digits : List Char)
    (hword : word.map Char.toLower = "attrib".toList)
    (hne : digits ≠ []) (hd : ∀ c ∈ digits, c.isDigit = true)
    (hval : decimalValue digits < 2 ^ 31) :
    parseSemantic LongBits (word ++ digits) = some (decimalValue digits) := by
  have hp : skipPrefix Prefix (word ++ digits) = ([], digits) :=
    skipPrefix_of_toLower Prefix (by decide) word digits hword
  have hs := strtol_digits LongBits hLong digits hne hd hval
  simp only [parseSemantic, hp, hs, deref, ne_eq, not_true_eq_false, if_false, toUint32,
    Option.some.injEq]
  have h32 : ((decimalValue digits : Nat) : Int) % 2 ^ 32 = (decimalValue digits : Nat) := by
    apply Int.emod_eq_of_lt (Int.natCast_nonneg _)
    have : decimalValue digits < 2 ^ 32 := by omega
    exact_mod_cast this
  rw [h32]
  simp

/-! ## Lemmas on `MapHLSLVertexShaderInputs` -/

theorem mapInput_length (LongBits : Nat) (st : List Nat × List LogEntry)
    (Input : SPIRVShaderStageInputAttribs) :
    (mapInput LongBits st Input).1.length = st.1.length := by
  unfold mapInput
  split <;> simp

theorem foldl_mapInput_length (LongBits : Nat) (Inputs : List SPIRVShaderStageInputAttribs) :
    ∀ st : List Nat × List LogEntry,
      (Inputs.foldl (mapInput LongBits) st).1.length = st.1.length := by
  induction Inputs with
  | nil => intro st; rfl
  | cons a l ih => intro st; rw [List.foldl_cons, ih, mapInput_length]

theorem mapInput_getElem_of_ne (LongBits : Nat) (st : List Nat × List LogEntry)
    (Input : SPIRVShaderStageInputAttribs) (i : Nat) (h : Input.LocationDecorationOffset ≠ i) :
    (mapInput LongBits st Input).1[i]? = st.1[i]? := by
  unfold mapInput
  split
  · rfl
  · simp [List.getElem?_set, h]

theorem foldl_mapInput_getElem_of_ne (LongBits : Nat) (Inputs : List SPIRVShaderStageInputAttribs)
    (i : Nat) (h : ∀ inp ∈ Inputs, inp.LocationDecorationOffset ≠ i) :
    ∀ st : List Nat × List LogEntry,
      (Inputs.foldl (mapInput LongBits) st).1[i]? = st.1[i]? := by
  induction Inputs with
  | nil => intro st; rfl
  | cons a l ih =>
    intro st
    rw [List.foldl_cons, ih (fun inp hm => h inp (List.mem_cons_of_mem _ hm)),
      mapInput_getElem_of_ne _ _ _ _ (h a (List.mem_cons_self _ _))]

theorem mapInput_accepted (LongBits : Nat) (st : List Nat × List LogEntry)
    (Input : SPIRVShaderStageInputAttribs) (n : Nat)
    (hp : parseSemantic LongBits Input.Semantic = some n)
    (hoff : Input.LocationDecorationOffset < st.1.length) :
    (mapInput LongBits st Input).1[Input.LocationDecorationOffset]? = some n := by
  simp [mapInput, hp, List.getElem?_set, hoff]

/-! ## Claims -/

/-- C1: for every vertex input whose semantic is the word ATTRIB in any mix of
upper and lower case followed by a non-empty string of decimal digits of value
`n < 2^31`, the loop body reaches the assignment with `Location = n`, the word
at the input's `LocationDecorationOffset` is `n` once the input has been
processed, and it still is `n` at the end of the loop when no later input has
the same offset. The value depends on the digits only, not on the letter case. -/
theorem attrib_semantic_sets_location (LongBits : Nat) (hLong : 32 ≤ LongBits)
    (word digits : List Char) (off : Nat)
    (before after : List SPIRVShaderStageInputAttribs) (m_SPIRV : List Nat)
    (hword : word.map Char.toLower = "attrib".toList)
    (hne : digits ≠ []) (hd : ∀ c ∈ digits, c.isDigit = true)
    (hval : decimalValue digits < 2 ^ 31)
    (hoff : off < m_SPIRV.length) :
    parseSemantic LongBits (word ++ digits) = some (decimalValue digits) ∧
    (MapHLSLVertexShaderInputs LongBits (before ++ [⟨word ++ digits, off⟩]) m_SPIRV).1[off]?
      = some (decimalValue digits) ∧
    ((∀ inp ∈ after, inp.LocationDecorationOffset ≠ off) →
      (MapHLSLVertexShaderInputs LongBits (before ++ ⟨word ++ digits, off⟩ :: after) m_SPIRV).1[off]?
        = some (decimalValue digits)) := by
  have hp := parseSemantic_attrib LongBits hLong word digits hword hne hd hval
  have hstep : ∀ st : List Nat × List LogEntry, st.1.length = m_SPIRV.length →
      (mapInput LongBits st ⟨word ++ digits, off⟩).1[off]? = some (decimalValue digits) := by
    intro st hlen
    exact mapInput_accepted LongBits st ⟨word ++ digits, off⟩ _ hp (by simpa [hlen] using hoff)
  have hlen := foldl_mapInput_length LongBits before (m_SPIRV, [])
  refine ⟨hp, ?_, ?_⟩
  · simp only [MapHLSLVertexShaderInputs, List.foldl_append, List.foldl_cons, List.foldl_nil]
    exact hstep _ hlen
  · intro hafter
    simp only [MapHLSLVertexShaderInputs, List.foldl_append, List.foldl_cons]
    rw [foldl_mapInput_getElem_of_ne LongBits after off hafter]
    exact hstep _ hlen

/-- Witness of C1: the semantic "ATTRIB3" at offset 1 gives location 3. -/
theorem attrib_semantic_sets_location_witness :
    parseSemantic 64 ("ATTRIB".toList ++ "3".toList) = some 3 ∧
    (MapHLSLVertexShaderInputs 64 ([] ++ [⟨"ATTRIB".toList ++ "3".toList, 1⟩]) [7, 7, 7]).1[1]?
      = some 3 := by
  have h := attrib_semantic_sets_location 64 (by decide) "ATTRIB".toList "3".toList 1 [] []
    [7, 7, 7] (by decide) (by decide) (by decide) (by simp [decimalValue]) (by decide)
  have hv : decimalValue "3".toList = 3 := by simp [decimalValue]
  rw [hv] at h
  exact ⟨h.1, h.2.1⟩

/-! ### Unfolding the constructor -/

theorem create_result (env : Env) (ShaderCI : ShaderCreateInfo) (VkShaderCI : CreateInfo) :
    (ShaderVkImpl.create env ShaderCI VkShaderCI).Result =
      match (initSPIRV env ShaderCI VkShaderCI).Result with
      | Except.error e => Except.error e
      | Except.ok m_SPIRV => (loadShaderResources env ShaderCI m_SPIRV).Result := by
  unfold ShaderVkImpl.create
  cases h : (initSPIRV env ShaderCI VkShaderCI).Result <;> simp [h]

theorem create_of_init (env : Env) (ShaderCI : ShaderCreateInfo) (VkShaderCI : CreateInfo)
    (m_SPIRV : List Nat) (h : (initSPIRV env ShaderCI VkShaderCI).Result = Except.ok m_SPIRV) :
    (ShaderVkImpl.create env ShaderCI VkShaderCI).Result =
        (loadShaderResources env ShaderCI m_SPIRV).Result ∧
    (ShaderVkImpl.create env ShaderCI VkShaderCI).Log =
        (initSPIRV env ShaderCI VkShaderCI).Log ++ (loadShaderResources env ShaderCI m_SPIRV).Log ∧
    (ShaderVkImpl.create env ShaderCI VkShaderCI).CompilerOutput =
        (initSPIRV env ShaderCI VkShaderCI).CompilerOutput := by
  unfold ShaderVkImpl.create
  simp [h]

theorem create_of_init_error (env : Env) (ShaderCI : ShaderCreateInfo) (VkShaderCI : CreateInfo)
    (e : String) (h : (initSPIRV env ShaderCI VkShaderCI).Result = Except.error e) :
    (ShaderVkImpl.create env ShaderCI VkShaderCI).Result = Except.error e ∧
    (ShaderVkImpl.create env ShaderCI VkShaderCI).CompilerOutput =
        (initSPIRV env ShaderCI VkShaderCI).CompilerOutput := by
  unfold ShaderVkImpl.create
  simp [h]

theorem loadShaderResources_skipped (env : Env) (ShaderCI : ShaderCreateInfo) (m_SPIRV : List Nat)
    (h : ShaderCI.CompileFlags &&& env.SHADER_COMPILE_FLAG_SKIP_REFLECTION ≠ 0) :
    loadShaderResources env ShaderCI m_SPIRV =
      { Result := Except.ok ⟨ShaderCI.Desc, m_SPIRV, ShaderCI.EntryPoint, none⟩ } := by
  simp [loadShaderResources, h]

theorem loadShaderResources_loaded (env : Env) (ShaderCI : ShaderCreateInfo) (m_SPIRV : List Nat)
    (Resources : SPIRVShaderResources) (EntryPoint : String)
    (h : ShaderCI.CompileFlags &&& env.SHADER_COMPILE_FLAG_SKIP_REFLECTION = 0)
    (hload : env.LoadResources m_SPIRV ShaderCI.Desc
      (if ShaderCI.Desc.UseCombinedTextureSamplers then some ShaderCI.Desc.CombinedSamplerSuffix
        else none)
      (decide (ShaderCI.Desc.ShaderType = SHADER_TYPE.VERTEX)) = Except.ok (Resources, EntryPoint)) :
    loadShaderResources env ShaderCI m_SPIRV =
      if (decide (ShaderCI.Desc.ShaderType = SHADER_TYPE.VERTEX) && Resources.IsHLSLSource) = true then
        { Result := Except.ok ⟨ShaderCI.Desc,
            (MapHLSLVertexShaderInputs env.LongBits Resources.ShaderStageInputs m_SPIRV).1,
            EntryPoint, some Resources⟩
          Log := (MapHLSLVertexShaderInputs env.LongBits Resources.ShaderStageInputs m_SPIRV).2 }
      else { Result := Except.ok ⟨ShaderCI.Desc, m_SPIRV, EntryPoint, some Resources⟩ } := by
  simp only [loadShaderResources, h, if_true, hload]

theorem mapInput_log_mono (LongBits : Nat) (st : List Nat × List LogEntry)
    (Input : SPIRVShaderStageInputAttribs) (m : LogEntry) (h : m ∈ st.2) :
    m ∈ (mapInput LongBits st Input).2 := by
  unfold mapInput
  split
  · exact List.mem_append_left _ h
  · exact h

theorem foldl_mapInput_log_mono (LongBits : Nat) (Inputs : List SPIRVShaderStageInputAttribs)
    (m : LogEntry) :
    ∀ st : List Nat × List LogEntry, m ∈ st.2 → m ∈ (Inputs.foldl (mapInput LongBits) st).2 := by
  induction Inputs with
  | nil => intro st h; exact h
  | cons a l ih => intro st h; exact ih _ (mapInput_log_mono LongBits st a m h)

theorem foldl_mapInput_rejected_logged (LongBits : Nat)
    (Inputs : List SPIRVShaderStageInputAttribs) (inp : SPIRVShaderStageInputAttribs)
    (hmem : inp ∈ Inputs) (hrej : parseSemantic LongBits inp.Semantic = none) :
    ∀ st : List Nat × List LogEntry,
      semanticError inp.Semantic ∈ (Inputs.foldl (mapInput LongBits) st).2 := by
  induction Inputs with
  | nil => simp at hmem
  | cons a l ih =>
    intro st
    rw [List.foldl_cons]
    rcases List.mem_cons.mp hmem with rfl | hl
    · apply foldl_mapInput_log_mono
      simp [mapInput, hrej]
    · exact ih hl _

/-- C2 (counterexample): an HLSL vertex shader whose only input has the semantic
"POSITION" is created successfully; the constructor returns an object (with the
SPIR-V unchanged) and only logs an error. -/
theorem position_semantic_creation_succeeds :
    (ShaderVkImpl.create (hlslEnv [⟨"POSITION".toList, 3⟩]) vertexShaderCI {}).Result =
      Except.ok ⟨vertexShaderCI.Desc, [119734787, 65536, 0, 0], "main",
        some ⟨true, [⟨"POSITION".toList, 3⟩], 0⟩⟩ ∧
    (ShaderVkImpl.create (hlslEnv [⟨"POSITION".toList, 3⟩]) vertexShaderCI {}).Log =
      [semanticError "POSITION".toList] := by
  constructor <;> rfl

/-- C2 (amended): for an HLSL vertex shader whose SPIR-V was obtained and whose
reflection was loaded, creation succeeds whatever the semantics of the inputs
are: the object holds the SPIR-V left by `MapHLSLVertexShaderInputs`, and for
every input whose semantic is rejected the error message is in the log. -/
theorem rejected_semantic_logged_not_fatal (env : Env) (ShaderCI : ShaderCreateInfo)
    (VkShaderCI : CreateInfo) (m_SPIRV : List Nat) (Resources : SPIRVShaderResources)
    (EntryPoint : String)
    (hinit : (initSPIRV env ShaderCI VkShaderCI).Result = Except.ok m_SPIRV)
    (hrefl : ShaderCI.CompileFlags &&& env.SHADER_COMPILE_FLAG_SKIP_REFLECTION = 0)
    (hvs : ShaderCI.Desc.ShaderType = SHADER_TYPE.VERTEX)
    (hload : env.LoadResources m_SPIRV ShaderCI.Desc
      (if ShaderCI.Desc.UseCombinedTextureSamplers then some ShaderCI.Desc.CombinedSamplerSuffix
        else none) true = Except.ok (Resources, EntryPoint))
    (hhlsl : Resources.IsHLSLSource = true) :
    (ShaderVkImpl.create env ShaderCI VkShaderCI).Result =
      Except.ok ⟨ShaderCI.Desc,
        (MapHLSLVertexShaderInputs env.LongBits Resources.ShaderStageInputs m_SPIRV).1,
        EntryPoint, some Resources⟩ ∧
    ∀ inp ∈ Resources.ShaderStageInputs, parseSemantic env.LongBits inp.Semantic = none →
      semanticError inp.Semantic ∈ (ShaderVkImpl.create env ShaderCI VkShaderCI).Log := by
  obtain ⟨hres, hlog, -⟩ := create_of_init env ShaderCI VkShaderCI m_SPIRV hinit
  have hl := loadShaderResources_loaded env ShaderCI m_SPIRV Resources EntryPoint hrefl
    (by simpa [hvs] using hload)
  simp only [hvs, hhlsl, decide_True, Bool.and_self, if_true] at hl
  rw [hres, hlog, hl]
  refine ⟨rfl, ?_⟩
  intro inp hmem hrej
  apply List.mem_append_right
  exact foldl_mapInput_rejected_logged env.LongBits _ inp hmem hrej _

/-- Witness of C2 (amended): the vertex shader with the input "POSITION". -/
theorem rejected_semantic_logged_not_fatal_witness :
    (ShaderVkImpl.create (hlslEnv [⟨"POSITION".toList, 3⟩]) vertexShaderCI {}).Result =
      Except.ok ⟨vertexShaderCI.Desc,
        (MapHLSLVertexShaderInputs 64 [⟨"POSITION".toList, 3⟩] [119734787, 65536, 0, 0]).1,
        "main", some ⟨true, [⟨"POSITION".toList, 3⟩], 0⟩⟩ ∧
    ∀ inp ∈ [(⟨"POSITION".toList, 3⟩ : SPIRVShaderStageInputAttribs)],
      parseSemantic 64 inp.Semantic = none →
      semanticError inp.Semantic ∈
        (ShaderVkImpl.create (hlslEnv [⟨"POSITION".toList, 3⟩]) vertexShaderCI {}).Log :=
  rejected_semantic_logged_not_fatal (hlslEnv [⟨"POSITION".toList, 3⟩]) vertexShaderCI {}
    [119734787, 65536, 0, 0] ⟨true, [⟨"POSITION".toList, 3⟩], 0⟩ "main" rfl rfl rfl rfl rfl

/-- C3 (code at the failing inputs): the semantics "ATTRIB" (no digits),
"ATTRIB-1", "ATTRIB+3" and "ATTRIB 3" are all accepted: a location is written
at the input's offset and nothing is logged, although none of them is ATTRIB
followed by decimal digits only. -/
theorem attrib_without_plain_digits_is_mapped :
    MapHLSLVertexShaderInputs 64 [⟨"ATTRIB".toList, 1⟩] [7, 7, 7] = ([7, 0, 7], []) ∧
    MapHLSLVertexShaderInputs 64 [⟨"ATTRIB-1".toList, 1⟩] [7, 7, 7] = ([7, 4294967295, 7], []) ∧
    MapHLSLVertexShaderInputs 64 [⟨"ATTRIB+3".toList, 1⟩] [7, 7, 7] = ([7, 3, 7], []) ∧
    MapHLSLVertexShaderInputs 64 [⟨"ATTRIB 3".toList, 1⟩] [7, 7, 7] = ([7, 3, 7], []) := by
  decide

/-! ### Byte code -/

theorem length_bytesOfWords (ws : List Nat) : (bytesOfWords ws).length = 4 * ws.length := by
  induction ws with
  | nil => rfl
  | cons w ws ih => simp only [bytesOfWords, List.length_cons, ih]; omega

theorem wordsOfBytes_bytesOfWords (ws : List Nat) (hw : ∀ w ∈ ws, w < 2 ^ 32) :
    wordsOfBytes (bytesOfWords ws) = ws := by
  induction ws with
  | nil => rfl
  | cons w ws ih =>
    have h1 : w < 2 ^ 32 := hw w (List.mem_cons_self _ _)
    have h2 := ih (fun x hx => hw x (List.mem_cons_of_mem _ hx))
    simp only [bytesOfWords, wordsOfBytes, h2, List.cons.injEq, and_true]
    omega

theorem copyByteCode_words (env : Env) (words extra : List Nat) (hw : ∀ w ∈ words, w < 2 ^ 32) :
    (copyByteCode env (bytesOfWords words ++ extra) (4 * words.length)).Result =
      Except.ok words := by
  have hlen := length_bytesOfWords words
  have hdiv : 4 * words.length / 4 = words.length := by omega
  have htake : List.take (4 * words.length) (bytesOfWords words ++ extra) = bytesOfWords words := by
    rw [← hlen, List.take_left']
    rfl
  simp only [copyByteCode, memcpy, hdiv, htake, Except.ok.injEq]
  rw [List.drop_of_length_le (by simp), List.append_nil, wordsOfBytes_bytesOfWords words hw,
    List.take_length]

theorem initSPIRV_byteCode (env : Env) (ShaderCI : ShaderCreateInfo) (VkShaderCI : CreateInfo)
    (ByteCode : List Nat)
    (hsrc : ShaderCI.Source = none) (hfile : ShaderCI.FilePath = none)
    (hbc : ShaderCI.ByteCode = some ByteCode) :
    initSPIRV env ShaderCI VkShaderCI = copyByteCode env ByteCode ShaderCI.ByteCodeSize := by
  simp [initSPIRV, hsrc, hfile, hbc]

theorem MapHLSLVertexShaderInputs_length (LongBits : Nat)
    (Inputs : List SPIRVShaderStageInputAttribs) (m_SPIRV : List Nat) :
    (MapHLSLVertexShaderInputs LongBits Inputs m_SPIRV).1.length = m_SPIRV.length :=
  foldl_mapInput_length LongBits Inputs (m_SPIRV, [])

theorem loadShaderResources_length (env : Env) (ShaderCI : ShaderCreateInfo) (m_SPIRV : List Nat)
    (sh : ShaderVkImpl) (h : (loadShaderResources env ShaderCI m_SPIRV).Result = Except.ok sh) :
    sh.m_SPIRV.length = m_SPIRV.length := by
  by_cases hf : ShaderCI.CompileFlags &&& env.SHADER_COMPILE_FLAG_SKIP_REFLECTION = 0
  · cases hl : env.LoadResources m_SPIRV ShaderCI.Desc
      (if ShaderCI.Desc.UseCombinedTextureSamplers then some ShaderCI.Desc.CombinedSamplerSuffix
        else none)
      (decide (ShaderCI.Desc.ShaderType = SHADER_TYPE.VERTEX)) with
    | error e => simp [loadShaderResources, hf, hl] at h
    | ok p =>
      obtain ⟨Resources, EntryPoint⟩ := p
      rw [loadShaderResources_loaded env ShaderCI m_SPIRV Resources EntryPoint hf hl] at h
      split at h
      · simp only [Except.ok.injEq] at h
        rw [← h]
        exact MapHLSLVertexShaderInputs_length _ _ _
      · simp only [Except.ok.injEq] at h
        rw [← h]
  · rw [loadShaderResources_skipped env ShaderCI m_SPIRV hf] at h
    simp only [Except.ok.injEq] at h
    rw [← h]

/-- C4 (counterexample): a vertex shader created from the byte code
`[0x07230203, 0x00010000]` whose reflection reports HLSL source and the input
"ATTRIB3" at word 1 stores `[0x07230203, 3]`, not the supplied words. -/
theorem bytecode_vertex_shader_is_remapped :
    ∃ sh, (ShaderVkImpl.create attrib3Env byteCodeCI {}).Result = Except.ok sh ∧
      sh.m_SPIRV = [119734787, 3] ∧ sh.m_SPIRV ≠ [119734787, 65536] :=
  ⟨⟨byteCodeCI.Desc, [119734787, 3], "main", some ⟨true, [⟨"ATTRIB3".toList, 1⟩], 0⟩⟩,
    rfl, rfl, by decide⟩

/-- C4 (amended): for a shader created from byte code (`Source` and `FilePath`
null) holding the words `words` with `ByteCodeSize = 4 * words.length`:
when reflection is skipped the object stores exactly `words`; when reflection
is loaded the object stores `words`, except for a vertex shader whose
reflection reports HLSL source, which stores `words` after
`MapHLSLVertexShaderInputs`; in every case a created shader has exactly
`ByteCodeSize / 4` words. -/
theorem bytecode_stored_words (env : Env) (ShaderCI : ShaderCreateInfo) (VkShaderCI : CreateInfo)
    (words extra : List Nat)
    (hsrc : ShaderCI.Source = none) (hfile : ShaderCI.FilePath = none)
    (hbc : ShaderCI.ByteCode = some (bytesOfWords words ++ extra))
    (hsize : ShaderCI.ByteCodeSize = 4 * words.length)
    (hw : ∀ w ∈ words, w < 2 ^ 32) :
    (ShaderCI.CompileFlags &&& env.SHADER_COMPILE_FLAG_SKIP_REFLECTION ≠ 0 →
      (ShaderVkImpl.create env ShaderCI VkShaderCI).Result =
        Except.ok ⟨ShaderCI.Desc, words, ShaderCI.EntryPoint, none⟩) ∧
    (∀ Resources EntryPoint,
      ShaderCI.CompileFlags &&& env.SHADER_COMPILE_FLAG_SKIP_REFLECTION = 0 →
      env.LoadResources words ShaderCI.Desc
        (if ShaderCI.Desc.UseCombinedTextureSamplers then some ShaderCI.Desc.CombinedSamplerSuffix
          else none)
        (decide (ShaderCI.Desc.ShaderType = SHADER_TYPE.VERTEX)) = Except.ok (Resources, EntryPoint) →
      (ShaderVkImpl.create env ShaderCI VkShaderCI).Result =
        Except.ok ⟨ShaderCI.Desc,
          if ShaderCI.Desc.ShaderType = SHADER_TYPE.VERTEX ∧ Resources.IsHLSLSource = true then
            (MapHLSLVertexShaderInputs env.LongBits Resources.ShaderStageInputs words).1
          else words,
          EntryPoint, some Resources⟩) ∧
    (∀ sh, (ShaderVkImpl.create env ShaderCI VkShaderCI).Result = Except.ok sh →
      sh.m_SPIRV.length = ShaderCI.ByteCodeSize / 4) := by
  have hinit : (initSPIRV env ShaderCI VkShaderCI).Result = Except.ok words := by
    rw [initSPIRV_byteCode env ShaderCI VkShaderCI _ hsrc hfile hbc, hsize]
    exact copyByteCode_words env words extra hw
  have hres := (create_of_init env ShaderCI VkShaderCI words hinit).1
  refine ⟨?_, ?_, ?_⟩
  · intro hskip
    rw [hres, loadShaderResources_skipped env ShaderCI words hskip]
  · intro Resources EntryPoint hrefl hload
    rw [hres, loadShaderResources_loaded env ShaderCI words Resources EntryPoint hrefl hload]
    by_cases hv : ShaderCI.Desc.ShaderType = SHADER_TYPE.VERTEX <;>
      cases hh : Resources.IsHLSLSource <;> simp [hv, hh]
  · intro sh hsh
    rw [hres] at hsh
    rw [loadShaderResources_length env ShaderCI words sh hsh, hsize]
    omega

/-- Witness of C4 (amended): the two-word byte code of `byteCodeCI`, with
reflection reporting the input "ATTRIB3" at word 1. -/
theorem bytecode_stored_words_witness :
    (ShaderVkImpl.create attrib3Env byteCodeCI {}).Result =
      Except.ok ⟨byteCodeCI.Desc,
        if byteCodeCI.Desc.ShaderType = SHADER_TYPE.VERTEX ∧ true = true then
          (MapHLSLVertexShaderInputs 64 [⟨"ATTRIB3".toList, 1⟩] [119734787, 65536]).1
        else [119734787, 65536],
        "main", some ⟨true, [⟨"ATTRIB3".toList, 1⟩], 0⟩⟩ :=
  (bytecode_stored_words attrib3Env byteCodeCI {} [119734787, 65536] [] rfl rfl rfl rfl
    (by decide)).2.1 ⟨true, [⟨"ATTRIB3".toList, 1⟩], 0⟩ "main" rfl rfl

/-! ### Selection of the input -/

theorem initSPIRV_source (env : Env) (ShaderCI : ShaderCreateInfo) (VkShaderCI : CreateInfo)
    (hsrc : ShaderCI.Source ≠ none ∨ ShaderCI.FilePath ≠ none) :
    initSPIRV env ShaderCI VkShaderCI = compileFromSource env ShaderCI VkShaderCI := by
  have : (ShaderCI.Source.isSome || ShaderCI.FilePath.isSome) = true := by
    rcases hsrc with h | h
    · simp [Option.isSome_iff_ne_none.mpr h]
    · simp [Option.isSome_iff_ne_none.mpr h]
  simp [initSPIRV, this]

theorem compileFromSource_result (env : Env) (ShaderCI : ShaderCreateInfo) (VkShaderCI : CreateInfo) :
    (compileFromSource env ShaderCI VkShaderCI).Result =
      (match (runCompiler env ShaderCI VkShaderCI).Result with
       | Except.error e => Except.error e
       | Except.ok m_SPIRV =>
         if m_SPIRV = [] then Except.error (failedToCompile ShaderCI.Desc.Name)
         else Except.ok m_SPIRV) ∧
    (compileFromSource env ShaderCI VkShaderCI).CompilerOutput =
      (runCompiler env ShaderCI VkShaderCI).CompilerOutput ∧
    (compileFromSource env ShaderCI VkShaderCI).Log =
      DEV_CHECK_ERR env ShaderCI.ByteCode.isNone
        "'ByteCode' must be null when shader is created from source code or a file" ++
      (selectCompiler ShaderCI VkShaderCI).2 ++ (runCompiler env ShaderCI VkShaderCI).Log := by
  unfold compileFromSource
  cases h : (runCompiler env ShaderCI VkShaderCI).Result with
  | error e => simp [h]
  | ok v => by_cases hv : v = [] <;> simp [h, hv]

theorem runCompiler_congr (env : Env) (ci1 ci2 : ShaderCreateInfo) (VkShaderCI : CreateInfo)
    (hcomp : ci1.ShaderCompiler = ci2.ShaderCompiler)
    (hlang : ci1.SourceLanguage = ci2.SourceLanguage)
    (hver : ci1.HLSLVersion = ci2.HLSLVersion)
    (hty : ci1.Desc.ShaderType = ci2.Desc.ShaderType)
    (hmac : ci1.Macros = ci2.Macros)
    (hfac : ci1.pShaderSourceStreamFactory = ci2.pShaderSourceStreamFactory)
    (hDXC : ∀ c, VkShaderCI.pDXCompiler = some c → c.Compile ci1 = c.Compile ci2)
    (hHLSL : env.HLSLtoSPIRV ci1 = env.HLSLtoSPIRV ci2)
    (hRead : env.ReadShaderSourceFile ci1 = env.ReadShaderSourceFile ci2)
    (hBuild : env.BuildGLSLSourceString ci1 = env.BuildGLSLSourceString ci2) :
    runCompiler env ci1 VkShaderCI = runCompiler env ci2 VkShaderCI := by
  have hsel : selectCompiler ci1 VkShaderCI = selectCompiler ci2 VkShaderCI := by
    simp only [selectCompiler, hcomp]
  have hg : CompileShaderGLSLang env ci1 VkShaderCI = CompileShaderGLSLang env ci2 VkShaderCI := by
    simp only [CompileShaderGLSLang, glslSourceData, hlang, hHLSL, hRead, hBuild, hty, hmac, hfac]
  have hd : CompileShaderDXC env ci1 VkShaderCI = CompileShaderDXC env ci2 VkShaderCI := by
    unfold CompileShaderDXC
    cases hp : VkShaderCI.pDXCompiler with
    | none => rfl
    | some c => simp only [hDXC c hp, hver]
  simp only [runCompiler, hsel, hg, hd]

/-- C5: selection of the input of the constructor. (1) When `Source` or
`FilePath` is non-null the SPIR-V is the one compiled from source (creation
fails when compilation throws or returns an empty vector), and `ByteCode` is
not used: changing `ByteCode` and `ByteCodeSize` does not change the result, as
long as the external compilers do not read them. (2) Otherwise, when `ByteCode`
is non-null, the SPIR-V handed to reflection is the copy of the byte code.
(3) Otherwise creation fails with the error "Shader source must be provided"
and no shader is produced. -/
theorem creation_input_selection (env : Env) (ShaderCI : ShaderCreateInfo)
    (VkShaderCI : CreateInfo) :
    ((ShaderCI.Source ≠ none ∨ ShaderCI.FilePath ≠ none) →
      (ShaderVkImpl.create env ShaderCI VkShaderCI).Result =
        (match (runCompiler env ShaderCI VkShaderCI).Result with
         | Except.error e => Except.error e
         | Except.ok m_SPIRV =>
           if m_SPIRV = [] then Except.error (failedToCompile ShaderCI.Desc.Name)
           else (loadShaderResources env ShaderCI m_SPIRV).Result) ∧
      ∀ (ByteCode : Option (List Nat)) (ByteCodeSize : Nat),
        (∀ c, VkShaderCI.pDXCompiler = some c →
          c.Compile { ShaderCI with ByteCode := ByteCode, ByteCodeSize := ByteCodeSize } =
            c.Compile ShaderCI) →
        env.HLSLtoSPIRV { ShaderCI with ByteCode := ByteCode, ByteCodeSize := ByteCodeSize } =
          env.HLSLtoSPIRV ShaderCI →
        env.ReadShaderSourceFile { ShaderCI with ByteCode := ByteCode, ByteCodeSize := ByteCodeSize } =
          env.ReadShaderSourceFile ShaderCI →
        env.BuildGLSLSourceString { ShaderCI with ByteCode := ByteCode, ByteCodeSize := ByteCodeSize } =
          env.BuildGLSLSourceString ShaderCI →
        (ShaderVkImpl.create env { ShaderCI with ByteCode := ByteCode, ByteCodeSize := ByteCodeSize }
            VkShaderCI).Result =
          (ShaderVkImpl.create env ShaderCI VkShaderCI).Result) ∧
    (ShaderCI.Source = none → ShaderCI.FilePath = none →
      ∀ ByteCode, ShaderCI.ByteCode = some ByteCode →
        (ShaderVkImpl.create env ShaderCI VkShaderCI).Result =
          (loadShaderResources env ShaderCI
            ((wordsOfBytes (memcpy (List.replicate (4 * (ShaderCI.ByteCodeSize / 4)) 0) ByteCode
              ShaderCI.ByteCodeSize)).take (ShaderCI.ByteCodeSize / 4))).Result) ∧
    (ShaderCI.Source = none → ShaderCI.FilePath = none → ShaderCI.ByteCode = none →
      (ShaderVkImpl.create env ShaderCI VkShaderCI).Result = Except.error noShaderSource) := by
  have key : ∀ ci : ShaderCreateInfo, (ci.Source ≠ none ∨ ci.FilePath ≠ none) →
      (ShaderVkImpl.create env ci VkShaderCI).Result =
        (match (runCompiler env ci VkShaderCI).Result with
         | Except.error e => Except.error e
         | Except.ok m_SPIRV =>
           if m_SPIRV = [] then Except.error (failedToCompile ci.Desc.Name)
           else (loadShaderResources env ci m_SPIRV).Result) := by
    intro ci hsrc
    rw [create_result, initSPIRV_source env ci VkShaderCI hsrc,
      (compileFromSource_result env ci VkShaderCI).1]
    cases h : (runCompiler env ci VkShaderCI).Result with
    | error e => rfl
    | ok v => by_cases hv : v = [] <;> simp [hv]
  refine ⟨?_, ?_, ?_⟩
  · intro hsrc
    refine ⟨key ShaderCI hsrc, ?_⟩
    intro ByteCode ByteCodeSize hDXC hHLSL hRead hBuild
    have h2 := key { ShaderCI with ByteCode := ByteCode, ByteCodeSize := ByteCodeSize } hsrc
    have hrc := runCompiler_congr env
      { ShaderCI with ByteCode := ByteCode, ByteCodeSize := ByteCodeSize } ShaderCI VkShaderCI
      rfl rfl rfl rfl rfl rfl hDXC hHLSL hRead hBuild
    rw [key ShaderCI hsrc, h2, hrc]
    rfl
  · intro hsrc hfile ByteCode hbc
    rw [create_result, initSPIRV_byteCode env ShaderCI VkShaderCI ByteCode hsrc hfile hbc]
    rfl
  · intro hsrc hfile hbc
    rw [create_result]
    simp [initSPIRV, hsrc, hfile, hbc]

/-- Witness of C5: with `Source`, `FilePath` and `ByteCode` all null, creation
fails; the byte code of `byteCodeCI` is what reflection receives. -/
theorem creation_input_selection_witness :
    (ShaderVkImpl.create exampleEnv
      { Desc := { Name := "VS", ShaderType := SHADER_TYPE.VERTEX } } {}).Result =
        Except.error noShaderSource ∧
    (ShaderVkImpl.create exampleEnv byteCodeCI {}).Result =
      (loadShaderResources exampleEnv byteCodeCI
        ((wordsOfBytes (memcpy (List.replicate (4 * (byteCodeCI.ByteCodeSize / 4)) 0)
          (bytesOfWords [119734787, 65536]) byteCodeCI.ByteCodeSize)).take
            (byteCodeCI.ByteCodeSize / 4))).Result :=
  ⟨(creation_input_selection exampleEnv
      { Desc := { Name := "VS", ShaderType := SHADER_TYPE.VERTEX } } {}).2.2 rfl rfl rfl,
   (creation_input_selection exampleEnv byteCodeCI {}).2.1 rfl rfl _ rfl⟩

/-! ### Compiler selection and compilation failures -/

theorem selectCompiler_dxc_unavailable (ShaderCI : ShaderCreateInfo) (VkShaderCI : CreateInfo)
    (hdxc : ShaderCI.ShaderCompiler = SHADER_COMPILER.DXC)
    (hnone : VkShaderCI.pDXCompiler = none ∨
      ∃ c, VkShaderCI.pDXCompiler = some c ∧ c.IsLoaded = false) :
    selectCompiler ShaderCI VkShaderCI = (SHADER_COMPILER.DEFAULT, [dxcNotLoaded]) := by
  rcases hnone with h | ⟨c, h, hl⟩
  · simp [selectCompiler, hdxc, h]
  · simp [selectCompiler, hdxc, h, hl]

theorem create_source (env : Env) (ShaderCI : ShaderCreateInfo) (VkShaderCI : CreateInfo)
    (hsrc : ShaderCI.Source ≠ none ∨ ShaderCI.FilePath ≠ none) :
    (ShaderVkImpl.create env ShaderCI VkShaderCI).Result =
      (match (runCompiler env ShaderCI VkShaderCI).Result with
       | Except.error e => Except.error e
       | Except.ok m_SPIRV =>
         if m_SPIRV = [] then Except.error (failedToCompile ShaderCI.Desc.Name)
         else (loadShaderResources env ShaderCI m_SPIRV).Result) := by
  rw [create_result, initSPIRV_source env ShaderCI VkShaderCI hsrc,
    (compileFromSource_result env ShaderCI VkShaderCI).1]
  cases h : (runCompiler env ShaderCI VkShaderCI).Result with
  | error e => rfl
  | ok v => by_cases hv : v = [] <;> simp [hv]

theorem create_source_output (env : Env) (ShaderCI : ShaderCreateInfo) (VkShaderCI : CreateInfo)
    (hsrc : ShaderCI.Source ≠ none ∨ ShaderCI.FilePath ≠ none) :
    (ShaderVkImpl.create env ShaderCI VkShaderCI).CompilerOutput =
      (runCompiler env ShaderCI VkShaderCI).CompilerOutput := by
  rw [← (compileFromSource_result env ShaderCI VkShaderCI).2.1,
    ← initSPIRV_source env ShaderCI VkShaderCI hsrc]
  cases h : (initSPIRV env ShaderCI VkShaderCI).Result with
  | error e => exact (create_of_init_error env ShaderCI VkShaderCI e h).2
  | ok v => exact (create_of_init env ShaderCI VkShaderCI v h).2.2

theorem create_source_log (env : Env) (ShaderCI : ShaderCreateInfo) (VkShaderCI : CreateInfo)
    (hsrc : ShaderCI.Source ≠ none ∨ ShaderCI.FilePath ≠ none) (m : LogEntry)
    (hm : m ∈ (selectCompiler ShaderCI VkShaderCI).2) :
    m ∈ (ShaderVkImpl.create env ShaderCI VkShaderCI).Log := by
  have hin : m ∈ (initSPIRV env ShaderCI VkShaderCI).Log := by
    rw [initSPIRV_source env ShaderCI VkShaderCI hsrc,
      (compileFromSource_result env ShaderCI VkShaderCI).2.2]
    exact List.mem_append_left _ (List.mem_append_right _ hm)
  unfold ShaderVkImpl.create
  cases h : (initSPIRV env ShaderCI VkShaderCI).Result with
  | error e => simpa [h] using hin
  | ok v => simpa [h] using Or.inl hin

/-- C6 (counterexample): DXC is requested for an HLSL shader while no DX
compiler is present (`pDXCompiler` is null); creation succeeds with the
SPIR-V of the default compiler and logs the warning. -/
theorem dxc_missing_creation_succeeds :
    (ShaderVkImpl.create exampleEnv dxcShaderCI {}).Result =
      Except.ok ⟨dxcShaderCI.Desc, [119734787, 65536, 0, 0], "main", none⟩ ∧
    (ShaderVkImpl.create exampleEnv dxcShaderCI {}).Log = [dxcNotLoaded] := by
  constructor <;> rfl

/-- C6 (amended): for a shader created from source, (1) a `ShaderCompiler`
value that is none of DEFAULT, GLSLANG and DXC makes creation fail with
"Unsupported shader compiler"; (2) when DXC is requested and the DX compiler is
null or not loaded, the warning is logged and the shader is compiled by
`CompileShaderGLSLang` as for the default compiler: creation fails only when
that compilation throws (as it does in a build without glslang) or returns an
empty vector, or when reflection fails. -/
theorem unsupported_compiler_fails_missing_dxc_falls_back (env : Env)
    (ShaderCI : ShaderCreateInfo) (VkShaderCI : CreateInfo)
    (hsrc : ShaderCI.Source ≠ none ∨ ShaderCI.FilePath ≠ none) :
    (∀ v, ShaderCI.ShaderCompiler = SHADER_COMPILER.OTHER v →
      (ShaderVkImpl.create env ShaderCI VkShaderCI).Result =
        Except.error "Unsupported shader compiler") ∧
    (ShaderCI.ShaderCompiler = SHADER_COMPILER.DXC →
      (VkShaderCI.pDXCompiler = none ∨
        ∃ c, VkShaderCI.pDXCompiler = some c ∧ c.IsLoaded = false) →
      dxcNotLoaded ∈ (ShaderVkImpl.create env ShaderCI VkShaderCI).Log ∧
      (ShaderVkImpl.create env ShaderCI VkShaderCI).Result =
        (match (CompileShaderGLSLang env ShaderCI VkShaderCI).Result with
         | Except.error e => Except.error e
         | Except.ok m_SPIRV =>
           if m_SPIRV = [] then Except.error (failedToCompile ShaderCI.Desc.Name)
           else (loadShaderResources env ShaderCI m_SPIRV).Result) ∧
      (env.DILIGENT_NO_GLSLANG = true →
        (ShaderVkImpl.create env ShaderCI VkShaderCI).Result = Except.error noGLSLang)) := by
  refine ⟨?_, ?_⟩
  · intro v hv
    have hr : runCompiler env ShaderCI VkShaderCI =
        { Result := Except.error "Unsupported shader compiler" } := by
      simp [runCompiler, selectCompiler, hv]
    rw [create_source env ShaderCI VkShaderCI hsrc, hr]
  · intro hdxc hnone
    have hsel := selectCompiler_dxc_unavailable ShaderCI VkShaderCI hdxc hnone
    have hr : runCompiler env ShaderCI VkShaderCI = CompileShaderGLSLang env ShaderCI VkShaderCI := by
      simp [runCompiler, hsel]
    refine ⟨?_, ?_, ?_⟩
    · apply create_source_log env ShaderCI VkShaderCI hsrc
      rw [hsel]
      exact List.mem_singleton.mpr rfl
    · rw [create_source env ShaderCI VkShaderCI hsrc, hr]
    · intro hno
      rw [create_source env ShaderCI VkShaderCI hsrc, hr]
      simp [CompileShaderGLSLang, hno]

/-- Witness of C6 (amended): `dxcShaderCI` without a DX compiler. -/
theorem unsupported_compiler_fails_missing_dxc_falls_back_witness :
    dxcNotLoaded ∈ (ShaderVkImpl.create exampleEnv dxcShaderCI {}).Log ∧
    (ShaderVkImpl.create exampleEnv dxcShaderCI {}).Result =
      (match (CompileShaderGLSLang exampleEnv dxcShaderCI {}).Result with
       | Except.error e => Except.error e
       | Except.ok m_SPIRV =>
         if m_SPIRV = [] then Except.error (failedToCompile dxcShaderCI.Desc.Name)
         else (loadShaderResources exampleEnv dxcShaderCI m_SPIRV).Result) :=
  have h := (unsupported_compiler_fails_missing_dxc_falls_back exampleEnv dxcShaderCI {}
    (Or.inl (by decide))).2 rfl (Or.inl rfl)
  ⟨h.1, h.2.1⟩

/-- C7 (counterexample): the HLSL compiler returns an empty SPIR-V vector and
the message "error: undeclared identifier"; creation fails with the text
"Failed to compile shader 'VS'", which does not contain the compiler's
message; the message is only in the compiler output. -/
theorem compile_error_message_not_in_exception :
    (ShaderVkImpl.create failedCompileEnv vertexShaderCI {}).Result =
      Except.error "Failed to compile shader 'VS'" ∧
    (ShaderVkImpl.create failedCompileEnv vertexShaderCI {}).CompilerOutput =
      some "error: undeclared identifier" ∧
    ¬ ("error: undeclared identifier".toList <:+: "Failed to compile shader 'VS'".toList) := by
  refine ⟨rfl, rfl, by decide⟩

/-- C7 (amended): when the compiler selected for a shader created from source
returns an empty SPIR-V vector, creation fails with the error
"Failed to compile shader '<Name>'", which carries the shader name only; the
text the compiler stored through `ppCompilerOutput` is passed on unchanged. For
HLSL compiled by glslang this is the output of `GLSLangUtils::HLSLtoSPIRV`. -/
theorem empty_spirv_fails_with_shader_name (env : Env) (ShaderCI : ShaderCreateInfo)
    (VkShaderCI : CreateInfo)
    (hsrc : ShaderCI.Source ≠ none ∨ ShaderCI.FilePath ≠ none)
    (hempty : (runCompiler env ShaderCI VkShaderCI).Result = Except.ok []) :
    (ShaderVkImpl.create env ShaderCI VkShaderCI).Result =
      Except.error (failedToCompile ShaderCI.Desc.Name) ∧
    (ShaderVkImpl.create env ShaderCI VkShaderCI).CompilerOutput =
      (runCompiler env ShaderCI VkShaderCI).CompilerOutput ∧
    ((ShaderCI.ShaderCompiler = SHADER_COMPILER.DEFAULT ∨
        ShaderCI.ShaderCompiler = SHADER_COMPILER.GLSLANG) →
      env.DILIGENT_NO_GLSLANG = false →
      ShaderCI.SourceLanguage = SHADER_SOURCE_LANGUAGE.HLSL →
      (ShaderVkImpl.create env ShaderCI VkShaderCI).CompilerOutput =
        (env.HLSLtoSPIRV ShaderCI SpirvVersion.Vk100 (VulkanDefine env)).Output) := by
  refine ⟨?_, create_source_output env ShaderCI VkShaderCI hsrc, ?_⟩
  · rw [create_source env ShaderCI VkShaderCI hsrc, hempty]
    simp
  · intro hcomp hno hlang
    rw [create_source_output env ShaderCI VkShaderCI hsrc]
    rcases hcomp with h | h <;>
      simp [runCompiler, selectCompiler, h, CompileShaderGLSLang, hno, hlang]

/-- Witness of C7 (amended): the failing HLSL compiler of `failedCompileEnv`. -/
theorem empty_spirv_fails_with_shader_name_witness :
    (ShaderVkImpl.create failedCompileEnv vertexShaderCI {}).Result =
      Except.error (failedToCompile "VS") ∧
    (ShaderVkImpl.create failedCompileEnv vertexShaderCI {}).CompilerOutput =
      (runCompiler failedCompileEnv vertexShaderCI {}).CompilerOutput :=
  have h := empty_spirv_fails_with_shader_name failedCompileEnv vertexShaderCI {}
    (Or.inl (by decide)) rfl
  ⟨h.1, h.2.1⟩

theorem runCompiler_supported (env : Env) (ShaderCI : ShaderCreateInfo) (VkShaderCI : CreateInfo)
    (hcomp : ShaderCI.ShaderCompiler = SHADER_COMPILER.DEFAULT ∨
      ShaderCI.ShaderCompiler = SHADER_COMPILER.GLSLANG ∨
      ShaderCI.ShaderCompiler = SHADER_COMPILER.DXC) :
    runCompiler env ShaderCI VkShaderCI = CompileShaderDXC env ShaderCI VkShaderCI ∨
    runCompiler env ShaderCI VkShaderCI = CompileShaderGLSLang env ShaderCI VkShaderCI := by
  rcases hcomp with h | h | h
  · right; simp [runCompiler, selectCompiler, h]
  · right; simp [runCompiler, selectCompiler, h]
  · cases hp : VkShaderCI.pDXCompiler with
    | none => right; simp [runCompiler, selectCompiler, h, hp]
    | some c =>
      cases hl : c.IsLoaded
      · right; simp [runCompiler, selectCompiler, h, hp, hl]
      · left; simp [runCompiler, selectCompiler, h, hp, hl]

theorem runCompiler_of_glslang_request (env : Env) (ShaderCI : ShaderCreateInfo)
    (VkShaderCI : CreateInfo)
    (h : ShaderCI.ShaderCompiler = SHADER_COMPILER.DEFAULT ∨
      ShaderCI.ShaderCompiler = SHADER_COMPILER.GLSLANG ∨
      (ShaderCI.ShaderCompiler = SHADER_COMPILER.DXC ∧
        (VkShaderCI.pDXCompiler = none ∨
          ∃ c, VkShaderCI.pDXCompiler = some c ∧ c.IsLoaded = false))) :
    runCompiler env ShaderCI VkShaderCI = CompileShaderGLSLang env ShaderCI VkShaderCI := by
  rcases h with h | h | ⟨h, hnone⟩
  · simp [runCompiler, selectCompiler, h]
  · simp [runCompiler, selectCompiler, h]
  · have hsel := selectCompiler_dxc_unavailable ShaderCI VkShaderCI h hnone
    simp [runCompiler, hsel]

theorem runCompiler_of_dxc_request (env : Env) (ShaderCI : ShaderCreateInfo)
    (VkShaderCI : CreateInfo)
    (h : ShaderCI.ShaderCompiler = SHADER_COMPILER.DXC ∧
      ∃ c, VkShaderCI.pDXCompiler = some c ∧ c.IsLoaded = true) :
    runCompiler env ShaderCI VkShaderCI = CompileShaderDXC env ShaderCI VkShaderCI := by
  obtain ⟨hdxc, c, hp, hl⟩ := h
  simp [runCompiler, selectCompiler, hdxc, hp, hl]

theorem create_skipped_of_compiler (env : Env) (ShaderCI : ShaderCreateInfo)
    (VkShaderCI : CreateInfo) (selected : Outcome (List Nat))
    (hsrc : ShaderCI.Source ≠ none ∨ ShaderCI.FilePath ≠ none)
    (hskip : ShaderCI.CompileFlags &&& env.SHADER_COMPILE_FLAG_SKIP_REFLECTION ≠ 0)
    (hsel : runCompiler env ShaderCI VkShaderCI = selected) :
    ((∃ sh, (ShaderVkImpl.create env ShaderCI VkShaderCI).Result = Except.ok sh) ↔
      ∃ v, selected.Result = Except.ok v ∧ v ≠ []) ∧
    (∀ sh, (ShaderVkImpl.create env ShaderCI VkShaderCI).Result = Except.ok sh →
      selected.Result = Except.ok sh.m_SPIRV ∧
      sh = ⟨ShaderCI.Desc, sh.m_SPIRV, ShaderCI.EntryPoint, none⟩) := by
  subst hsel
  have hc := create_source env ShaderCI VkShaderCI hsrc
  refine ⟨?_, ?_⟩
  · constructor
    · rintro ⟨sh, hsh⟩
      rw [hc] at hsh
      cases hr : (runCompiler env ShaderCI VkShaderCI).Result with
      | error e => simp [hr] at hsh
      | ok v =>
        by_cases hv : v = []
        · simp [hr, hv] at hsh
        · exact ⟨v, rfl, hv⟩
    · rintro ⟨v, hr, hv⟩
      refine ⟨⟨ShaderCI.Desc, v, ShaderCI.EntryPoint, none⟩, ?_⟩
      rw [hc, hr]
      simp [hv, loadShaderResources_skipped env ShaderCI v hskip]
  · intro sh hsh
    rw [hc] at hsh
    cases hr : (runCompiler env ShaderCI VkShaderCI).Result with
    | error e => simp [hr] at hsh
    | ok v =>
      by_cases hv : v = []
      · simp [hr, hv] at hsh
      · simp only [hr, hv, if_false, loadShaderResources_skipped env ShaderCI v hskip,
          Except.ok.injEq] at hsh
        subst hsh
        exact ⟨rfl, rfl⟩

/-- C8: for a shader created from source with a supported compiler (DEFAULT,
GLSLANG or DXC) and reflection skipped. The selected compiler is
`CompileShaderGLSLang` when DEFAULT or GLSLANG is requested, or when DXC is
requested and the DX compiler is null or not loaded; it is `CompileShaderDXC`
when DXC is requested and the DX compiler is loaded; one of the two cases
always applies. In each case creation succeeds if and only if that compiler
returns a non-empty SPIR-V vector, and the object then stores exactly the
vector returned, with the entry point of the creation attributes and no
shader resources. -/
theorem source_creation_succeeds_iff_nonempty (env : Env) (ShaderCI : ShaderCreateInfo)
    (VkShaderCI : CreateInfo)
    (hsrc : ShaderCI.Source ≠ none ∨ ShaderCI.FilePath ≠ none)
    (hcomp : ShaderCI.ShaderCompiler = SHADER_COMPILER.DEFAULT ∨
      ShaderCI.ShaderCompiler = SHADER_COMPILER.GLSLANG ∨
      ShaderCI.ShaderCompiler = SHADER_COMPILER.DXC)
    (hskip : ShaderCI.CompileFlags &&& env.SHADER_COMPILE_FLAG_SKIP_REFLECTION ≠ 0) :
    ((ShaderCI.ShaderCompiler = SHADER_COMPILER.DEFAULT ∨
        ShaderCI.ShaderCompiler = SHADER_COMPILER.GLSLANG ∨
        (ShaderCI.ShaderCompiler = SHADER_COMPILER.DXC ∧
          (VkShaderCI.pDXCompiler = none ∨
            ∃ c, VkShaderCI.pDXCompiler = some c ∧ c.IsLoaded = false))) ∨
      (ShaderCI.ShaderCompiler = SHADER_COMPILER.DXC ∧
        ∃ c, VkShaderCI.pDXCompiler = some c ∧ c.IsLoaded = true)) ∧
    ((ShaderCI.ShaderCompiler = SHADER_COMPILER.DEFAULT ∨
        ShaderCI.ShaderCompiler = SHADER_COMPILER.GLSLANG ∨
        (ShaderCI.ShaderCompiler = SHADER_COMPILER.DXC ∧
          (VkShaderCI.pDXCompiler = none ∨
            ∃ c, VkShaderCI.pDXCompiler = some c ∧ c.IsLoaded = false))) →
      ((∃ sh, (ShaderVkImpl.create env ShaderCI VkShaderCI).Result = Except.ok sh) ↔
        ∃ v, (CompileShaderGLSLang env ShaderCI VkShaderCI).Result = Except.ok v ∧ v ≠ []) ∧
      (∀ sh, (ShaderVkImpl.create env ShaderCI VkShaderCI).Result = Except.ok sh →
        (CompileShaderGLSLang env ShaderCI VkShaderCI).Result = Except.ok sh.m_SPIRV ∧
        sh = ⟨ShaderCI.Desc, sh.m_SPIRV, ShaderCI.EntryPoint, none⟩)) ∧
    ((ShaderCI.ShaderCompiler = SHADER_COMPILER.DXC ∧
        ∃ c, VkShaderCI.pDXCompiler = some c ∧ c.IsLoaded = true) →
      ((∃ sh, (ShaderVkImpl.create env ShaderCI VkShaderCI).Result = Except.ok sh) ↔
        ∃ v, (CompileShaderDXC env ShaderCI VkShaderCI).Result = Except.ok v ∧ v ≠ []) ∧
      (∀ sh, (ShaderVkImpl.create env ShaderCI VkShaderCI).Result = Except.ok sh →
        (CompileShaderDXC env ShaderCI VkShaderCI).Result = Except.ok sh.m_SPIRV ∧
        sh = ⟨ShaderCI.Desc, sh.m_SPIRV, ShaderCI.EntryPoint, none⟩)) ∧
    (runCompiler env ShaderCI VkShaderCI = CompileShaderDXC env ShaderCI VkShaderCI ∨
      runCompiler env ShaderCI VkShaderCI = CompileShaderGLSLang env ShaderCI VkShaderCI) ∧
    ((∃ sh, (ShaderVkImpl.create env ShaderCI VkShaderCI).Result = Except.ok sh) ↔
      ∃ v, (runCompiler env ShaderCI VkShaderCI).Result = Except.ok v ∧ v ≠ []) ∧
    (∀ sh, (ShaderVkImpl.create env ShaderCI VkShaderCI).Result = Except.ok sh →
      (runCompiler env ShaderCI VkShaderCI).Result = Except.ok sh.m_SPIRV ∧
      sh = ⟨ShaderCI.Desc, sh.m_SPIRV, ShaderCI.EntryPoint, none⟩) := by
  have hrun := create_skipped_of_compiler env ShaderCI VkShaderCI _ hsrc hskip rfl
  refine ⟨?_, ?_, ?_, runCompiler_supported env ShaderCI VkShaderCI hcomp, hrun.1, hrun.2⟩
  · rcases hcomp with h | h | h
    · exact Or.inl (Or.inl h)
    · exact Or.inl (Or.inr (Or.inl h))
    · cases hp : VkShaderCI.pDXCompiler with
      | none => exact Or.inl (Or.inr (Or.inr ⟨h, Or.inl rfl⟩))
      | some c =>
        cases hl : c.IsLoaded
        · exact Or.inl (Or.inr (Or.inr ⟨h, Or.inr ⟨c, rfl, hl⟩⟩))
        · exact Or.inr ⟨h, c, rfl, hl⟩
  · intro h
    exact create_skipped_of_compiler env ShaderCI VkShaderCI _ hsrc hskip
      (runCompiler_of_glslang_request env ShaderCI VkShaderCI h)
  · intro h
    exact create_skipped_of_compiler env ShaderCI VkShaderCI _ hsrc hskip
      (runCompiler_of_dxc_request env ShaderCI VkShaderCI h)

/-- Witness of C8: the HLSL vertex shader `dxcShaderCI` compiled by the loaded
DX compiler `dxcStub` yields the shader object that stores the three words
returned by DXC (the glslang stub would return four). -/
theorem source_creation_succeeds_iff_nonempty_witness :
    (ShaderVkImpl.create exampleEnv dxcShaderCI dxcCreateInfo).Result =
      Except.ok ⟨dxcShaderCI.Desc, [119734787, 65536, 1], "main", none⟩ := by
  have h := (source_creation_succeeds_iff_nonempty exampleEnv dxcShaderCI dxcCreateInfo
    (Or.inl (by decide)) (Or.inr (Or.inr rfl)) (by decide)).2.2.1 ⟨rfl, dxcStub, rfl, rfl⟩
  obtain ⟨sh, hsh⟩ := h.1.mpr ⟨[119734787, 65536, 1], rfl, by decide⟩
  have h2 := h.2 sh hsh
  have h3 : sh.m_SPIRV = [119734787, 65536, 1] := by
    have h4 : (Except.ok [119734787, 65536, 1] : Except String (List Nat)) =
        Except.ok sh.m_SPIRV := h2.1
    exact (Except.ok.inj h4).symm
  rw [hsh, h2.2, h3]
  rfl

/-! ### Legalization -/

/-- C10: in `CompileShaderDXC`, when DXC returns a SPIR-V vector and
legalization is skipped (`DILIGENT_NO_HLSL` build) or fails (the legalizer
returns an empty vector), the call does not fail: it returns the output of DXC
unchanged and logs exactly one message, a warning when skipped and an error
when failed. -/
theorem dxc_legalization_failure_keeps_output (env : Env) (ShaderCI : ShaderCreateInfo)
    (VkShaderCI : CreateInfo) (c : IDXCompiler) (SPIRV : List Nat) (out : Option String)
    (hp : VkShaderCI.pDXCompiler = some c)
    (hcomp : c.Compile ShaderCI ShaderCI.HLSLVersion (VulkanDefine env) = ⟨Except.ok SPIRV, out⟩) :
    (env.DILIGENT_NO_HLSL = true →
      CompileShaderDXC env ShaderCI VkShaderCI = ⟨Except.ok SPIRV, [legalizeSkipped], out⟩) ∧
    (env.DILIGENT_NO_HLSL = false → env.OptimizeSPIRV SPIRV = Except.ok [] →
      CompileShaderDXC env ShaderCI VkShaderCI = ⟨Except.ok SPIRV, [legalizeFailed], out⟩) := by
  constructor
  · intro hno
    simp [CompileShaderDXC, hp, hcomp, hno]
  · intro hno hopt
    simp [CompileShaderDXC, hp, hcomp, hno, hopt]

/-- Witness of C10: `dxcStub` with the failing legalizer of `failedLegalizeEnv`. -/
theorem dxc_legalization_failure_keeps_output_witness :
    CompileShaderDXC failedLegalizeEnv dxcShaderCI dxcCreateInfo =
      ⟨Except.ok [119734787, 65536, 1], [legalizeFailed], none⟩ :=
  (dxc_legalization_failure_keeps_output failedLegalizeEnv dxcShaderCI dxcCreateInfo dxcStub
    [119734787, 65536, 1] none rfl rfl).2 rfl rfl

/-! ### Where the vertex-input mapping is applied -/

theorem loadShaderResources_not_vertex (env : Env) (ShaderCI : ShaderCreateInfo)
    (m_SPIRV : List Nat) (sh : ShaderVkImpl)
    (hty : ShaderCI.Desc.ShaderType ≠ SHADER_TYPE.VERTEX)
    (h : (loadShaderResources env ShaderCI m_SPIRV).Result = Except.ok sh) :
    sh.m_SPIRV = m_SPIRV := by
  by_cases hf : ShaderCI.CompileFlags &&& env.SHADER_COMPILE_FLAG_SKIP_REFLECTION = 0
  · cases hl : env.LoadResources m_SPIRV ShaderCI.Desc
      (if ShaderCI.Desc.UseCombinedTextureSamplers then some ShaderCI.Desc.CombinedSamplerSuffix
        else none)
      (decide (ShaderCI.Desc.ShaderType = SHADER_TYPE.VERTEX)) with
    | error e => simp [loadShaderResources, hf, hl] at h
    | ok p =>
      obtain ⟨Resources, EntryPoint⟩ := p
      rw [loadShaderResources_loaded env ShaderCI m_SPIRV Resources EntryPoint hf hl] at h
      simp only [hty, decide_False, Bool.false_and, Bool.false_eq_true, if_false,
        Except.ok.injEq] at h
      rw [← h]
  · rw [loadShaderResources_skipped env ShaderCI m_SPIRV hf] at h
    simp only [Except.ok.injEq] at h
    rw [← h]

/-- C11: with `m_SPIRV` the compiled or supplied SPIR-V, the constructor applies
`MapHLSLVertexShaderInputs` exactly when reflection is not skipped, the shader
type is VERTEX and the loaded reflection reports HLSL source: in that case the
object stores the mapped SPIR-V and the block logs what the mapping logs; when
reflection is skipped, or the type is not VERTEX, or the source is not HLSL,
the object stores `m_SPIRV` itself and the block logs nothing. In particular a
shader of any other stage always stores exactly `m_SPIRV`. -/
theorem vertex_mapping_applied_iff (env : Env) (ShaderCI : ShaderCreateInfo)
    (VkShaderCI : CreateInfo) (m_SPIRV : List Nat)
    (hinit : (initSPIRV env ShaderCI VkShaderCI).Result = Except.ok m_SPIRV) :
    (ShaderCI.CompileFlags &&& env.SHADER_COMPILE_FLAG_SKIP_REFLECTION ≠ 0 →
      (ShaderVkImpl.create env ShaderCI VkShaderCI).Result =
        Except.ok ⟨ShaderCI.Desc, m_SPIRV, ShaderCI.EntryPoint, none⟩ ∧
      (loadShaderResources env ShaderCI m_SPIRV).Log = []) ∧
    (∀ Resources EntryPoint,
      ShaderCI.CompileFlags &&& env.SHADER_COMPILE_FLAG_SKIP_REFLECTION = 0 →
      env.LoadResources m_SPIRV ShaderCI.Desc
        (if ShaderCI.Desc.UseCombinedTextureSamplers then some ShaderCI.Desc.CombinedSamplerSuffix
          else none)
        (decide (ShaderCI.Desc.ShaderType = SHADER_TYPE.VERTEX)) = Except.ok (Resources, EntryPoint) →
      ((ShaderCI.Desc.ShaderType = SHADER_TYPE.VERTEX ∧ Resources.IsHLSLSource = true) →
        (ShaderVkImpl.create env ShaderCI VkShaderCI).Result =
          Except.ok ⟨ShaderCI.Desc,
            (MapHLSLVertexShaderInputs env.LongBits Resources.ShaderStageInputs m_SPIRV).1,
            EntryPoint, some Resources⟩ ∧
        (loadShaderResources env ShaderCI m_SPIRV).Log =
          (MapHLSLVertexShaderInputs env.LongBits Resources.ShaderStageInputs m_SPIRV).2) ∧
      (¬ (ShaderCI.Desc.ShaderType = SHADER_TYPE.VERTEX ∧ Resources.IsHLSLSource = true) →
        (ShaderVkImpl.create env ShaderCI VkShaderCI).Result =
          Except.ok ⟨ShaderCI.Desc, m_SPIRV, EntryPoint, some Resources⟩ ∧
        (loadShaderResources env ShaderCI m_SPIRV).Log = [])) ∧
    (ShaderCI.Desc.ShaderType ≠ SHADER_TYPE.VERTEX →
      ∀ sh, (ShaderVkImpl.create env ShaderCI VkShaderCI).Result = Except.ok sh →
        sh.m_SPIRV = m_SPIRV) := by
  have hres := (create_of_init env ShaderCI VkShaderCI m_SPIRV hinit).1
  refine ⟨?_, ?_, ?_⟩
  · intro hskip
    rw [hres, loadShaderResources_skipped env ShaderCI m_SPIRV hskip]
    exact ⟨rfl, rfl⟩
  · intro Resources EntryPoint hrefl hload
    have hl := loadShaderResources_loaded env ShaderCI m_SPIRV Resources EntryPoint hrefl hload
    constructor
    · rintro ⟨hv, hh⟩
      simp only [hv, hh, decide_True, Bool.and_self, if_true] at hl
      rw [hres, hl]
      exact ⟨rfl, rfl⟩
    · intro hn
      have hc : (decide (ShaderCI.Desc.ShaderType = SHADER_TYPE.VERTEX) &&
          Resources.IsHLSLSource) = false := by
        by_cases hv : ShaderCI.Desc.ShaderType = SHADER_TYPE.VERTEX
        · cases hh : Resources.IsHLSLSource
          · simp
          · exact absurd ⟨hv, hh⟩ hn
        · simp [hv]
      simp only [hc, Bool.false_eq_true, if_false] at hl
      rw [hres, hl]
      exact ⟨rfl, rfl⟩
  · intro hty sh hsh
    rw [hres] at hsh
    exact loadShaderResources_not_vertex env ShaderCI m_SPIRV sh hty hsh

/-- Witness of C11: in an environment whose reflection reports HLSL source and
the input "ATTRIB3" at word 1, the pixel shader `pixelShaderCI` keeps the
compiled SPIR-V, and the vertex shader `vertexShaderCI` stores the mapped one. -/
theorem vertex_mapping_applied_iff_witness :
    (ShaderVkImpl.create attrib3Env pixelShaderCI {}).Result =
      Except.ok ⟨pixelShaderCI.Desc, [119734787, 65536, 0, 0], "main", some ⟨true, [], 0⟩⟩ ∧
    (ShaderVkImpl.create attrib3Env vertexShaderCI {}).Result =
      Except.ok ⟨vertexShaderCI.Desc,
        (MapHLSLVertexShaderInputs 64 [⟨"ATTRIB3".toList, 1⟩] [119734787, 65536, 0, 0]).1,
        "main", some ⟨true, [⟨"ATTRIB3".toList, 1⟩], 0⟩⟩ :=
  ⟨(((vertex_mapping_applied_iff attrib3Env pixelShaderCI {} [119734787, 65536, 0, 0] rfl).2.1
      ⟨true, [], 0⟩ "main" rfl rfl).2 (by decide)).1,
   (((vertex_mapping_applied_iff attrib3Env vertexShaderCI {} [119734787, 65536, 0, 0] rfl).2.1
      ⟨true, [⟨"ATTRIB3".toList, 1⟩], 0⟩ "main" rfl rfl).1 ⟨rfl, rfl⟩).1⟩

/-! ### Frame of `MapHLSLVertexShaderInputs` -/

theorem mapInput_getElem_frame (LongBits : Nat) (st : List Nat × List LogEntry)
    (Input : SPIRVShaderStageInputAttribs) (i : Nat)
    (h : parseSemantic LongBits Input.Semantic ≠ none → Input.LocationDecorationOffset ≠ i) :
    (mapInput LongBits st Input).1[i]? = st.1[i]? := by
  unfold mapInput
  cases hp : parseSemantic LongBits Input.Semantic with
  | none => rfl
  | some n =>
    have hne : Input.LocationDecorationOffset ≠ i := h (by simp [hp])
    simp [List.getElem?_set, hne]

theorem foldl_mapInput_getElem_frame (LongBits : Nat) (Inputs : List SPIRVShaderStageInputAttribs)
    (i : Nat)
    (h : ∀ inp ∈ Inputs, parseSemantic LongBits inp.Semantic ≠ none →
      inp.LocationDecorationOffset ≠ i) :
    ∀ st : List Nat × List LogEntry,
      (Inputs.foldl (mapInput LongBits) st).1[i]? = st.1[i]? := by
  induction Inputs with
  | nil => intro st; rfl
  | cons a l ih =>
    intro st
    rw [List.foldl_cons, ih (fun inp hm => h inp (List.mem_cons_of_mem _ hm)),
      mapInput_getElem_frame _ _ _ _ (h a (List.mem_cons_self _ _))]

theorem mapInput_fst_congr (LongBits : Nat) (st1 st2 : List Nat × List LogEntry)
    (Input : SPIRVShaderStageInputAttribs) (h : st1.1 = st2.1) :
    (mapInput LongBits st1 Input).1 = (mapInput LongBits st2 Input).1 := by
  unfold mapInput
  cases parseSemantic LongBits Input.Semantic <;> simp [h]

theorem foldl_mapInput_fst_congr (LongBits : Nat) (Inputs : List SPIRVShaderStageInputAttribs) :
    ∀ st1 st2 : List Nat × List LogEntry, st1.1 = st2.1 →
      (Inputs.foldl (mapInput LongBits) st1).1 = (Inputs.foldl (mapInput LongBits) st2).1 := by
  induction Inputs with
  | nil => intro st1 st2 h; exact h
  | cons a l ih =>
    intro st1 st2 h
    rw [List.foldl_cons, List.foldl_cons]
    exact ih _ _ (mapInput_fst_congr LongBits st1 st2 a h)

theorem mapInput_rejected (LongBits : Nat) (st : List Nat × List LogEntry)
    (Input : SPIRVShaderStageInputAttribs) (h : parseSemantic LongBits Input.Semantic = none) :
    mapInput LongBits st Input = (st.1, st.2 ++ [semanticError Input.Semantic]) := by
  simp [mapInput, h]

/-- C17: frame of `MapHLSLVertexShaderInputs`. The SPIR-V vector keeps its
length; every word whose index is not the `LocationDecorationOffset` of an
input with an accepted semantic is unchanged; an input whose semantic is
rejected leaves the whole vector unchanged when it is processed, and the
SPIR-V at the end of the loop is the one obtained without that input, so the
later inputs are mapped all the same. -/
theorem map_inputs_frame (LongBits : Nat) (Inputs : List SPIRVShaderStageInputAttribs)
    (m_SPIRV : List Nat) :
    (MapHLSLVertexShaderInputs LongBits Inputs m_SPIRV).1.length = m_SPIRV.length ∧
    (∀ i, (∀ inp ∈ Inputs, parseSemantic LongBits inp.Semantic ≠ none →
        inp.LocationDecorationOffset ≠ i) →
      (MapHLSLVertexShaderInputs LongBits Inputs m_SPIRV).1[i]? = m_SPIRV[i]?) ∧
    (∀ (st : List Nat × List LogEntry) (inp : SPIRVShaderStageInputAttribs),
      parseSemantic LongBits inp.Semantic = none → (mapInput LongBits st inp).1 = st.1) ∧
    (∀ (before after : List SPIRVShaderStageInputAttribs) (inp : SPIRVShaderStageInputAttribs),
      Inputs = before ++ inp :: after → parseSemantic LongBits inp.Semantic = none →
      (MapHLSLVertexShaderInputs LongBits Inputs m_SPIRV).1 =
        (MapHLSLVertexShaderInputs LongBits (before ++ after) m_SPIRV).1) := by
  refine ⟨MapHLSLVertexShaderInputs_length LongBits Inputs m_SPIRV, ?_, ?_, ?_⟩
  · intro i h
    exact foldl_mapInput_getElem_frame LongBits Inputs i h (m_SPIRV, [])
  · intro st inp h
    rw [mapInput_rejected LongBits st inp h]
  · intro before after inp hI hrej
    subst hI
    simp only [MapHLSLVertexShaderInputs, List.foldl_append, List.foldl_cons]
    apply foldl_mapInput_fst_congr
    rw [mapInput_rejected LongBits _ inp hrej]

/-- Witness of C17: the rejected input "POSITION" between two accepted inputs
does not stop the mapping of "ATTRIB1". -/
theorem map_inputs_frame_witness :
    (MapHLSLVertexShaderInputs 64
      [⟨"ATTRIB0".toList, 2⟩, ⟨"POSITION".toList, 3⟩, ⟨"ATTRIB1".toList, 4⟩] [7, 7, 7, 7, 7]).1 =
    (MapHLSLVertexShaderInputs 64
      ([⟨"ATTRIB0".toList, 2⟩] ++ [⟨"ATTRIB1".toList, 4⟩]) [7, 7, 7, 7, 7]).1 :=
  (map_inputs_frame 64 [⟨"ATTRIB0".toList, 2⟩, ⟨"POSITION".toList, 3⟩, ⟨"ATTRIB1".toList, 4⟩]
    [7, 7, 7, 7, 7]).2.2.2 [⟨"ATTRIB0".toList, 2⟩] [⟨"ATTRIB1".toList, 4⟩]
    ⟨"POSITION".toList, 3⟩ rfl (by decide)

/-! ### The value written by `MapHLSLVertexShaderInputs` -/

theorem skipSpace_of_not_space (c : Char) (s : List Char) (h : isspace c.toNat = false) :
    skipSpace (c :: s) = c :: s := by
  simp [skipSpace, h]

theorem skipSpace_append (ws rest : List Char) (hws : ∀ c ∈ ws, isspace c.toNat = true)
    (hrest : skipSpace rest = rest) : skipSpace (ws ++ rest) = rest := by
  induction ws with
  | nil => simpa using hrest
  | cons c ws ih =>
    have hc := hws c (List.mem_cons_self _ _)
    simp only [List.cons_append, skipSpace, hc, if_true]
    exact ih (fun d hd => hws d (List.mem_cons_of_mem _ hd))

theorem isspace_digit (c : Char) (h : c.isDigit = true) : isspace c.toNat = false := by
  have hb := isDigit_bounds c h
  simp only [isspace, Bool.or_eq_false_iff, beq_eq_false_iff_ne, ne_eq, Bool.and_eq_false_imp,
    decide_eq_true_eq, decide_eq_false_iff_not]
  omega

theorem strtol_signed (LongBits : Nat) (ws sign digits : List Char)
    (hws : ∀ c ∈ ws, isspace c.toNat = true)
    (hsign : sign = [] ∨ sign = "-".toList ∨ sign = "+".toList)
    (hd : ∀ c ∈ digits, c.isDigit = true) (hne : digits ≠ []) :
    strtol LongBits (ws ++ sign ++ digits) =
      (clampLong LongBits (signedDecimalValue sign digits), []) := by
  have hs := scanDigits_digits digits hd 0 false
  have hemp : digits.isEmpty = false := by
    cases digits with
    | nil => exact absurd rfl hne
    | cons c ds => rfl
  simp only [zero_mul, zero_add, hemp, Bool.not_false, Bool.or_true] at hs
  rw [List.append_assoc]
  rcases hsign with h | h | h
  · subst h
    cases digits with
    | nil => exact absurd rfl hne
    | cons c ds =>
      have hdc := hd c (List.mem_cons_self _ _)
      have hb := isDigit_bounds c hdc
      have h45 : (c.toNat == 45) = false := by simp; omega
      have h43 : (c.toNat == 43) = false := by simp; omega
      have hsk : skipSpace (ws ++ ([] ++ c :: ds)) = c :: ds :=
        skipSpace_append ws _ hws (skipSpace_of_not_space c ds (isspace_digit c hdc))
      have hv : signedDecimalValue [] (c :: ds) = (decimalValue (c :: ds) : Int) := by
        simp [signedDecimalValue]
      simp only [strtol, hsk, deref, h45, h43, Bool.or_self, Bool.false_eq_true, if_false, hs, hv]
  · subst h
    have hsk : skipSpace (ws ++ ("-".toList ++ digits)) = "-".toList ++ digits :=
      skipSpace_append ws _ hws (skipSpace_of_not_space _ _ (by decide))
    have hv : signedDecimalValue "-".toList digits = -(decimalValue digits : Int) := by
      simp [signedDecimalValue]
    have hder : deref ("-".toList ++ digits) = 45 := rfl
    have htl : ("-".toList ++ digits).tail = digits := rfl
    simp only [strtol, hsk, hder, htl, beq_self_eq_true, Bool.true_or, if_true, hs, hv]
  · subst h
    have hsk : skipSpace (ws ++ ("+".toList ++ digits)) = "+".toList ++ digits :=
      skipSpace_append ws _ hws (skipSpace_of_not_space _ _ (by decide))
    have hv : signedDecimalValue "+".toList digits = (decimalValue digits : Int) := by
      simp [signedDecimalValue]
    have hder : deref ("+".toList ++ digits) = 43 := rfl
    have htl : ("+".toList ++ digits).tail = digits := rfl
    have h4345 : ((43 : Nat) == 45) = false := by decide
    simp only [strtol, hsk, hder, htl, h4345, beq_self_eq_true, Bool.or_true, if_true,
      Bool.false_eq_true, if_false, hs, hv]

theorem parseSemantic_of_strtol (LongBits : Nat) (word rest : List Char) (v : Int)
    (hword : word.map Char.toLower = "attrib".toList)
    (hs : strtol LongBits rest = (v, [])) :
    parseSemantic LongBits (word ++ rest) = some (toUint32 v) := by
  have hp : skipPrefix Prefix (word ++ rest) = ([], rest) :=
    skipPrefix_of_toLower Prefix (by decide) word rest hword
  simp [parseSemantic, hp, hs, deref]

theorem toUint32_of_range (v : Int) : toUint32 v = (v % 2 ^ 32).toNat := rfl

theorem clampLong_of_range (LongBits : Nat) (v : Int)
    (h1 : LONG_MIN LongBits ≤ v) (h2 : v ≤ LONG_MAX LongBits) : clampLong LongBits v = v := by
  unfold clampLong
  rw [if_neg (by omega), if_neg (by omega)]

/-- C18: for a semantic made of the word ATTRIB in any letter case followed by
a remainder that `strtol` consumes entirely (optional white space, an optional
sign and one or more digits, or nothing at all), the loop body writes at the
input's offset the value returned by `strtol` converted to `uint32_t`, that is
the signed decimal value (clamped to the range of `long`, as `strtol` does)
reduced modulo 2^32; when the value fits in a `long` this is the signed
decimal value modulo 2^32; an empty remainder writes 0. -/
theorem attrib_stored_value (LongBits : Nat) (word ws sign digits : List Char)
    (st : List Nat × List LogEntry) (off : Nat)
    (hword : word.map Char.toLower = "attrib".toList)
    (hws : ∀ c ∈ ws, isspace c.toNat = true)
    (hsign : sign = [] ∨ sign = "-".toList ∨ sign = "+".toList)
    (hd : ∀ c ∈ digits, c.isDigit = true) (hne : digits ≠ []) :
    parseSemantic LongBits (word ++ (ws ++ sign ++ digits)) =
      some ((clampLong LongBits (signedDecimalValue sign digits) % 2 ^ 32).toNat) ∧
    (mapInput LongBits st ⟨word ++ (ws ++ sign ++ digits), off⟩).1 =
      st.1.set off ((clampLong LongBits (signedDecimalValue sign digits) % 2 ^ 32).toNat) ∧
    (LONG_MIN LongBits ≤ signedDecimalValue sign digits →
      signedDecimalValue sign digits ≤ LONG_MAX LongBits →
      parseSemantic LongBits (word ++ (ws ++ sign ++ digits)) =
        some ((signedDecimalValue sign digits % 2 ^ 32).toNat)) ∧
    parseSemantic LongBits word = some 0 ∧
    (mapInput LongBits st ⟨word, off⟩).1 = st.1.set off 0 := by
  have hs := strtol_signed LongBits ws sign digits hws hsign hd hne
  have hp := parseSemantic_of_strtol LongBits word (ws ++ sign ++ digits) _ hword hs
  have h0 : parseSemantic LongBits word = some 0 := by
    have := parseSemantic_of_strtol LongBits word [] 0 hword rfl
    simpa [toUint32] using this
  refine ⟨hp, ?_, ?_, h0, ?_⟩
  · simp only [mapInput, hp]
    rfl
  · intro h1 h2
    rw [hp, clampLong_of_range LongBits _ h1 h2]
    rfl
  · simp only [mapInput, h0]

/-- Witness of C18: the semantic "ATTRIB-1" writes `0xFFFFFFFF` and the
semantic "ATTRIB" writes 0. -/
theorem attrib_stored_value_witness :
    parseSemantic 64 ("ATTRIB".toList ++ ([] ++ "-".toList ++ "1".toList)) = some 4294967295 ∧
    (mapInput 64 ([7, 7, 7], []) ⟨"ATTRIB".toList ++ ([] ++ "-".toList ++ "1".toList), 1⟩).1 =
      [7, 4294967295, 7] ∧
    parseSemantic 64 "ATTRIB".toList = some 0 ∧
    (mapInput 64 ([7, 7, 7], []) ⟨"ATTRIB".toList, 1⟩).1 = [7, 0, 7] := by
  have h := attrib_stored_value 64 "ATTRIB".toList [] "-".toList "1".toList ([7, 7, 7], []) 1
    (by decide) (by simp) (Or.inr (Or.inl rfl)) (by decide) (by decide)
  have hv : (clampLong 64 (signedDecimalValue "-".toList "1".toList) % 2 ^ 32).toNat
      = 4294967295 := by
    simp [signedDecimalValue, decimalValue, clampLong, LONG_MAX, LONG_MIN]
  rw [hv] at h
  exact ⟨h.1, h.2.1, h.2.2.2.1, h.2.2.2.2⟩

/-! ### Bounds of the byte code copy -/

theorem copyByteCode_resizedBytes (env : Env) (ByteCode : List Nat) (ByteCodeSize : Nat) :
    (copyByteCode env ByteCode ByteCodeSize).Result =
      Except.ok ((wordsOfBytes (memcpy (resizedBytes ByteCodeSize) ByteCode ByteCodeSize)).take
        (ByteCodeSize / 4)) := rfl

/-- C19 (counterexample): with `ByteCodeSize = 5` the vector is resized to one
word, four bytes, and the five bytes copied exceed it. -/
theorem bytecode_copy_overruns_for_size_5 :
    (resizedBytes 5).length = 4 ∧ memcpyInBounds (resizedBytes 5) 5 = false := by
  decide

/-- C19 (amended): the destination of the copy has `4 * (ByteCodeSize / 4)`
bytes, never more than `ByteCodeSize`; the `ByteCodeSize` bytes copied stay
in bounds exactly when `ByteCodeSize` is a multiple of 4 (the condition the
`DEV_CHECK_ERR` of the constructor states), and then the two sizes are equal;
otherwise the copy is `ByteCodeSize % 4` bytes longer than the destination. -/
theorem bytecode_copy_bounds (ByteCodeSize : Nat) :
    (resizedBytes ByteCodeSize).length = 4 * (ByteCodeSize / 4) ∧
    (resizedBytes ByteCodeSize).length ≤ ByteCodeSize ∧
    (memcpyInBounds (resizedBytes ByteCodeSize) ByteCodeSize = true ↔ ByteCodeSize % 4 = 0) ∧
    (ByteCodeSize % 4 = 0 → (resizedBytes ByteCodeSize).length = ByteCodeSize) ∧
    ByteCodeSize = (resizedBytes ByteCodeSize).length + ByteCodeSize % 4 ∧
    (∀ (env : Env) (ByteCode : List Nat),
      (copyByteCode env ByteCode ByteCodeSize).Result =
        Except.ok ((wordsOfBytes (memcpy (resizedBytes ByteCodeSize) ByteCode ByteCodeSize)).take
          (ByteCodeSize / 4))) := by
  have hlen : (resizedBytes ByteCodeSize).length = 4 * (ByteCodeSize / 4) := by
    simp [resizedBytes]
  refine ⟨hlen, ?_, ?_, ?_, ?_, ?_⟩
  · rw [hlen]; omega
  · simp only [memcpyInBounds, hlen, decide_eq_true_eq]; omega
  · intro h; rw [hlen]; omega
  · rw [hlen]; omega
  · intro env ByteCode
    exact copyByteCode_resizedBytes env ByteCode ByteCodeSize

/-- Witness of C19 (amended): eight bytes are copied into a vector of two words. -/
theorem bytecode_copy_bounds_witness :
    (resizedBytes 8).length = 8 ∧ memcpyInBounds (resizedBytes 8) 8 = true :=
  ⟨(bytecode_copy_bounds 8).2.2.2.1 (by decide), (bytecode_copy_bounds 8).2.2.1.mpr (by decide)⟩

/-! ### Target version of `CompileShaderGLSLang` -/

/-- C20: in a build with glslang, `CompileShaderGLSLang` compiles an HLSL
source with the target `Vk100` whatever `VkVersion` and `HasSpirv14` are; for
any other source language whose source text could be prepared, it calls
`GLSLtoSPIRV` with the target `Vk120` when `VkVersion >= 1.2`, otherwise
`Vk110_Spirv14` when `VkVersion >= 1.1` and `HasSpirv14`, otherwise `Vk110`
when `VkVersion >= 1.1`, otherwise `Vk100`; outside the range `[1.1, 1.2)`
the flag `HasSpirv14` has no effect. -/
theorem glslang_target_selection (env : Env) (ShaderCI : ShaderCreateInfo)
    (VkShaderCI : CreateInfo) (hno : env.DILIGENT_NO_GLSLANG = false) :
    (ShaderCI.SourceLanguage = SHADER_SOURCE_LANGUAGE.HLSL →
      CompileShaderGLSLang env ShaderCI VkShaderCI =
        { Result := (env.HLSLtoSPIRV ShaderCI SpirvVersion.Vk100 (VulkanDefine env)).SPIRV
          CompilerOutput := (env.HLSLtoSPIRV ShaderCI SpirvVersion.Vk100 (VulkanDefine env)).Output }) ∧
    (ShaderCI.SourceLanguage ≠ SHADER_SOURCE_LANGUAGE.HLSL →
      ∀ SourceData Macros,
        glslSourceData env ShaderCI VkShaderCI = Except.ok (SourceData, Macros) →
        ∀ target : SpirvVersion,
          ((VK_API_VERSION_1_2 ≤ VkShaderCI.VkVersion ∧ target = SpirvVersion.Vk120) ∨
           (VK_API_VERSION_1_1 ≤ VkShaderCI.VkVersion ∧ VkShaderCI.VkVersion < VK_API_VERSION_1_2 ∧
              VkShaderCI.HasSpirv14 = true ∧ target = SpirvVersion.Vk110_Spirv14) ∨
           (VK_API_VERSION_1_1 ≤ VkShaderCI.VkVersion ∧ VkShaderCI.VkVersion < VK_API_VERSION_1_2 ∧
              VkShaderCI.HasSpirv14 = false ∧ target = SpirvVersion.Vk110) ∨
           (VkShaderCI.VkVersion < VK_API_VERSION_1_1 ∧ target = SpirvVersion.Vk100)) →
          CompileShaderGLSLang env ShaderCI VkShaderCI =
            { Result := (env.GLSLtoSPIRV
                { ShaderType := ShaderCI.Desc.ShaderType
                  ShaderSource := SourceData.Source
                  SourceCodeLen := toInt32 SourceData.SourceLength
                  Version := target
                  Macros := Macros
                  AssignBindings := true
                  pShaderSourceStreamFactory := ShaderCI.pShaderSourceStreamFactory }).SPIRV
              CompilerOutput := (env.GLSLtoSPIRV
                { ShaderType := ShaderCI.Desc.ShaderType
                  ShaderSource := SourceData.Source
                  SourceCodeLen := toInt32 SourceData.SourceLength
                  Version := target
                  Macros := Macros
                  AssignBindings := true
                  pShaderSourceStreamFactory := ShaderCI.pShaderSourceStreamFactory }).Output }) ∧
    ((VkShaderCI.VkVersion < VK_API_VERSION_1_1 ∨ VK_API_VERSION_1_2 ≤ VkShaderCI.VkVersion) →
      glslTargetVersion { VkShaderCI with HasSpirv14 := true } =
        glslTargetVersion { VkShaderCI with HasSpirv14 := false }) := by
  refine ⟨?_, ?_, ?_⟩
  · intro hlang
    simp [CompileShaderGLSLang, hno, hlang]
  · intro hlang SourceData Macros hsrc target htarget
    have hv : glslTargetVersion VkShaderCI = target := by
      unfold glslTargetVersion
      have h12 : VK_API_VERSION_1_1 ≤ VK_API_VERSION_1_2 := by decide
      rcases htarget with ⟨h, rfl⟩ | ⟨h1, h2, h3, rfl⟩ | ⟨h1, h2, h3, rfl⟩ | ⟨h, rfl⟩
      · simp [h]
      · simp [h1, Nat.not_le.mpr h2, h3]
      · simp [h1, Nat.not_le.mpr h2, h3]
      · have h2 : ¬ VK_API_VERSION_1_2 ≤ VkShaderCI.VkVersion := by omega
        have h1 : ¬ VK_API_VERSION_1_1 ≤ VkShaderCI.VkVersion := by omega
        simp [h1, h2]
    simp only [CompileShaderGLSLang, hno, hlang, hsrc, hv, Bool.false_eq_true, if_false]
  · intro h
    unfold glslTargetVersion
    have h12 : VK_API_VERSION_1_1 ≤ VK_API_VERSION_1_2 := by decide
    rcases h with h | h
    · have h2 : ¬ VK_API_VERSION_1_2 ≤ VkShaderCI.VkVersion := by omega
      have h1 : ¬ VK_API_VERSION_1_1 ≤ VkShaderCI.VkVersion := by omega
      simp [h1, h2]
    · simp [h]

/-- Witness of C20: a GLSL shader compiled for Vulkan 1.1 with SPIR-V 1.4
support is compiled with the target `Vk110_Spirv14` (the probe compiler
answers 114), an HLSL shader with the target `Vk100`. -/
theorem glslang_target_selection_witness :
    (CompileShaderGLSLang versionProbeEnv glslShaderCI
      { VkVersion := VK_API_VERSION_1_1, HasSpirv14 := true }).Result = Except.ok [114] ∧
    (CompileShaderGLSLang versionProbeEnv pixelShaderCI
      { VkVersion := VK_API_VERSION_1_2, HasSpirv14 := true }).Result =
      (versionProbeEnv.HLSLtoSPIRV pixelShaderCI SpirvVersion.Vk100
        (VulkanDefine versionProbeEnv)).SPIRV := by
  have h1 := (glslang_target_selection versionProbeEnv glslShaderCI
    { VkVersion := VK_API_VERSION_1_1, HasSpirv14 := true } rfl).2.1 (by decide) _ _ rfl
    SpirvVersion.Vk110_Spirv14 (Or.inr (Or.inl ⟨by decide, by decide, rfl, rfl⟩))
  have h2 := (glslang_target_selection versionProbeEnv pixelShaderCI
    { VkVersion := VK_API_VERSION_1_2, HasSpirv14 := true } rfl).1 rfl
  exact ⟨by rw [h1]; rfl, by rw [h2]⟩

/-! ### Equality and hash of the signature cache -/

/-- C13: `SerializablePRSEqual` holds two null entries equal, a null and a
non-null entry different, and two non-null entries equal exactly when the
signatures are structurally equal; it is reflexive and symmetric whenever the
structural equality is; null hashes to 0, and entries that compare equal have
equal `SerializablePRSHasher` values whenever structurally equal signatures
have equal `CalcHash`. -/
theorem prs_cache_equality {σ : Type} (Equal : σ → σ → Bool) (CalcHash : σ → Nat) :
    SerializablePRSEqual Equal none none = true ∧
    (∀ R, SerializablePRSEqual Equal none (some R) = false ∧
      SerializablePRSEqual Equal (some R) none = false) ∧
    (∀ L R, SerializablePRSEqual Equal (some L) (some R) = Equal L R) ∧
    ((∀ x, Equal x x = true) → ∀ a, SerializablePRSEqual Equal a a = true) ∧
    ((∀ x y, Equal x y = Equal y x) →
      ∀ a b, SerializablePRSEqual Equal a b = SerializablePRSEqual Equal b a) ∧
    SerializablePRSHasher CalcHash none = 0 ∧
    ((∀ x y, Equal x y = true → CalcHash x = CalcHash y) →
      ∀ a b, SerializablePRSEqual Equal a b = true →
        SerializablePRSHasher CalcHash a = SerializablePRSHasher CalcHash b) := by
  refine ⟨rfl, fun R => ⟨rfl, rfl⟩, fun L R => rfl, ?_, ?_, rfl, ?_⟩
  · intro hrefl a
    cases a with
    | none => rfl
    | some x => exact hrefl x
  · intro hsymm a b
    cases a <;> cases b
    · rfl
    · rfl
    · rfl
    · exact hsymm _ _
  · intro hcompat a b hab
    cases a <;> cases b
    · rfl
    · exact absurd (show false = true from hab) (by decide)
    · exact absurd (show false = true from hab) (by decide)
    · exact hcompat _ _ hab

/-- Witness of C13: signatures taken as numbers compared with `==`, hashed by
themselves. -/
theorem prs_cache_equality_witness :
    SerializablePRSEqual (fun x y : Nat => x == y) (some 3) (some 3) = true ∧
    SerializablePRSHasher (fun x : Nat => x) (some 3) =
      SerializablePRSHasher (fun x : Nat => x) (some 3) :=
  ⟨(prs_cache_equality (fun x y : Nat => x == y) (fun x => x)).2.2.2.1 (fun x => by simp)
      (some 3),
   (prs_cache_equality (fun x y : Nat => x == y) (fun x => x)).2.2.2.2.2.2
    (fun x y h => by simpa using h) (some 3) (some 3) rfl⟩

/-! ### Maximum shader version of a D3D12 device -/

/-- C16: in a D3D12 build `GetRenderDeviceD3D12MaxShaderVersion` returns true
if and only if `pDevice` is non-null, its type is `RENDER_DEVICE_TYPE_D3D12`
and the query of `IRenderDeviceD3D12` succeeds; `Version` is then the value of
`GetMaxShaderVersion()`, and on every false return it is the zero version,
whatever it was on entry. Without D3D12 support the function returns false
with the zero version. The C export returns the same result. -/
theorem d3d12_max_shader_version (DILIGENT_D3D12_SUPPORTED : Bool)
    (pDevice : Option IRenderDevice) (Version : ShaderVersion) :
    ((GetRenderDeviceD3D12MaxShaderVersion true pDevice Version).1 = true ↔
      ∃ Device pDeviceD3D12, pDevice = some Device ∧
        Device.DeviceType = RENDER_DEVICE_TYPE.D3D12 ∧
        Device.QueryD3D12 = some pDeviceD3D12) ∧
    (∀ Device pDeviceD3D12, pDevice = some Device →
      Device.DeviceType = RENDER_DEVICE_TYPE.D3D12 → Device.QueryD3D12 = some pDeviceD3D12 →
      (GetRenderDeviceD3D12MaxShaderVersion true pDevice Version).1 = true ∧
      (GetRenderDeviceD3D12MaxShaderVersion true pDevice Version).2.1 =
        pDeviceD3D12.MaxShaderVersion) ∧
    ((GetRenderDeviceD3D12MaxShaderVersion DILIGENT_D3D12_SUPPORTED pDevice Version).1 = false →
      (GetRenderDeviceD3D12MaxShaderVersion DILIGENT_D3D12_SUPPORTED pDevice Version).2.1 =
        ⟨0, 0⟩) ∧
    (GetRenderDeviceD3D12MaxShaderVersion false pDevice Version).1 = false ∧
    (GetRenderDeviceD3D12MaxShaderVersion false pDevice Version).2.1 = ⟨0, 0⟩ ∧
    Diligent_GetRenderDeviceD3D12MaxShaderVersion DILIGENT_D3D12_SUPPORTED pDevice Version =
      GetRenderDeviceD3D12MaxShaderVersion DILIGENT_D3D12_SUPPORTED pDevice Version := by
  refine ⟨?_, ?_, ?_, rfl, rfl, rfl⟩
  · constructor
    · intro h
      cases pDevice with
      | none => simp [GetRenderDeviceD3D12MaxShaderVersion] at h
      | some Device =>
        by_cases hty : Device.DeviceType = RENDER_DEVICE_TYPE.D3D12
        · cases hq : Device.QueryD3D12 with
          | none => simp [GetRenderDeviceD3D12MaxShaderVersion, hty, hq] at h
          | some q => exact ⟨Device, q, rfl, hty, hq⟩
        · simp [GetRenderDeviceD3D12MaxShaderVersion, hty] at h
    · rintro ⟨Device, q, rfl, hty, hq⟩
      simp [GetRenderDeviceD3D12MaxShaderVersion, hty, hq]
  · rintro Device q rfl hty hq
    simp [GetRenderDeviceD3D12MaxShaderVersion, hty, hq]
  · intro h
    cases DILIGENT_D3D12_SUPPORTED with
    | false => rfl
    | true =>
      cases pDevice with
      | none => rfl
      | some Device =>
        by_cases hty : Device.DeviceType = RENDER_DEVICE_TYPE.D3D12
        · cases hq : Device.QueryD3D12 with
          | none => simp [GetRenderDeviceD3D12MaxShaderVersion, hty, hq]
          | some q => simp [GetRenderDeviceD3D12MaxShaderVersion, hty, hq] at h
        · simp [GetRenderDeviceD3D12MaxShaderVersion, hty]

/-- Witness of C16: a D3D12 device whose maximum shader version is 6.5, with
`Version` holding 1.2 on entry; and a Vulkan device. -/
theorem d3d12_max_shader_version_witness :
    (GetRenderDeviceD3D12MaxShaderVersion true
      (some ⟨RENDER_DEVICE_TYPE.D3D12, some ⟨⟨6, 5⟩⟩⟩) ⟨1, 2⟩).1 = true ∧
    (GetRenderDeviceD3D12MaxShaderVersion true
      (some ⟨RENDER_DEVICE_TYPE.D3D12, some ⟨⟨6, 5⟩⟩⟩) ⟨1, 2⟩).2.1 = ⟨6, 5⟩ ∧
    (GetRenderDeviceD3D12MaxShaderVersion true
      (some ⟨RENDER_DEVICE_TYPE.VULKAN, none⟩) ⟨1, 2⟩).2.1 = ⟨0, 0⟩ := by
  have h1 := (d3d12_max_shader_version true (some ⟨RENDER_DEVICE_TYPE.D3D12, some ⟨⟨6, 5⟩⟩⟩)
    ⟨1, 2⟩).2.1 _ _ rfl rfl rfl
  have h2 := (d3d12_max_shader_version true (some ⟨RENDER_DEVICE_TYPE.VULKAN, none⟩) ⟨1, 2⟩).2.2.1
    rfl
  exact ⟨h1.1, h1.2, h2⟩

/-! ### Name of the default resource signature -/

/-- C15: `GetDefaultPRSName` returns the text "Default Signature of PSO '"
followed by the name of the pipeline state and by "'", and distinct pipeline
state names give distinct signature names. -/
theorem default_prs_name_injective :
    (∀ PSOName, GetDefaultPRSName PSOName = "Default Signature of PSO '" ++ PSOName ++ "'") ∧
    Function.Injective GetDefaultPRSName := by
  refine ⟨fun _ => rfl, ?_⟩
  intro a b h
  have hd := congrArg String.data h
  simp only [GetDefaultPRSName, String.data_append, List.append_assoc] at hd
  have h1 := List.append_cancel_left hd
  have h2 := List.append_cancel_right h1
  exact String.ext h2

/-- Witness of C15: the pipeline state "C1", and the distinct names "G1", "G2". -/
theorem default_prs_name_injective_witness :
    GetDefaultPRSName "C1" = "Default Signature of PSO 'C1'" ∧
    GetDefaultPRSName "G1" ≠ GetDefaultPRSName "G2" :=
  ⟨default_prs_name_injective.1 "C1",
    fun h => absurd (default_prs_name_injective.2 h) (by decide)⟩

/-! ### Equality of shader keys -/

theorem shaderKey_equals_iff (a b : ShaderKey) :
    ShaderKey.equals a b = true ↔ a = b := by
  cases a with
  | mk ma =>
    cases b with
    | mk mb =>
      cases ma with
      | mk ba =>
        cases mb with
        | mk bb => simp [ShaderKey.equals, SerializedMemory.equals]

/-- C14 (counterexample): there is no 64-bit hash function of the blobs for
which equal hashes and equal lengths make two shader keys compare equal: for
every hash function two distinct blobs of nine bytes have the same hash. -/
theorem hash_and_length_do_not_determine_key :
    ¬ ∃ CalcHash : SerializedMemory → Fin (2 ^ 64), ∀ a b : ShaderKey,
      ShaderKey.Hash CalcHash a = ShaderKey.Hash CalcHash b →
      a.Mem.Bytes.length = b.Mem.Bytes.length → ShaderKey.equals a b = true := by
  rintro ⟨CalcHash, hall⟩
  have hcard : Fintype.card (Fin (2 ^ 64)) < Fintype.card (Fin 9 → Fin 256) := by
    simp only [Fintype.card_fin, Fintype.card_fun]
    norm_num
  obtain ⟨x, y, hxy, hf⟩ :=
    Fintype.exists_ne_map_eq_of_card_lt (fun v : Fin 9 → Fin 256 => CalcHash ⟨List.ofFn v⟩) hcard
  have h := hall ⟨⟨List.ofFn x⟩⟩ ⟨⟨List.ofFn y⟩⟩ hf (by simp)
  have heq := (shaderKey_equals_iff _ _).mp h
  simp only [ShaderKey.mk.injEq, SerializedMemory.mk.injEq] at heq
  exact absurd (List.ofFn_injective heq) hxy

/-- C14 (amended): two shader keys compare equal exactly when their serialized
blobs are equal byte for byte; keys that compare equal have equal hashes and
equal lengths. -/
theorem shader_key_equality (CalcHash : SerializedMemory → Fin (2 ^ 64)) (a b : ShaderKey) :
    (ShaderKey.equals a b = true ↔ a.Mem.Bytes = b.Mem.Bytes) ∧
    (ShaderKey.equals a b = true →
      ShaderKey.Hash CalcHash a = ShaderKey.Hash CalcHash b ∧
      a.Mem.Bytes.length = b.Mem.Bytes.length) := by
  constructor
  · simp [ShaderKey.equals, SerializedMemory.equals]
  · intro h
    have heq := (shaderKey_equals_iff a b).mp h
    subst heq
    exact ⟨rfl, rfl⟩

/-! ### The shader dedup index -/

theorem find_append_entry (Map : ShaderIndexMap) (Key Key2 : ShaderKey) (Index : Nat) :
    ShaderIndexMap.find (Map ++ [(Key, Index)]) Key2 =
      match ShaderIndexMap.find Map Key2 with
      | some i => some i
      | none => if Key = Key2 then some Index else none := by
  unfold ShaderIndexMap.find
  rw [List.find?_append]
  cases h : List.find? (fun e => ShaderKey.equals e.1 Key2) Map with
  | some e => simp
  | none =>
    by_cases hk : Key = Key2
    · subst hk
      have : ShaderKey.equals Key Key = true := (shaderKey_equals_iff _ _).mpr rfl
      simp [List.find?, this]
    · have : ShaderKey.equals Key Key2 = false := by
        cases hb : ShaderKey.equals Key Key2 with
        | false => rfl
        | true => exact absurd ((shaderKey_equals_iff _ _).mp hb) hk
      simp [List.find?, this, hk]

theorem shadersConsistent_empty : shadersConsistent ⟨[], []⟩ := by
  intro Key Index
  simp [ShaderIndexMap.find]

theorem not_mem_of_find_none (Shaders : PerDeviceShaders) (hc : shadersConsistent Shaders)
    (Key : ShaderKey) (h : Shaders.Map.find Key = none) : Key ∉ Shaders.List := by
  intro hmem
  obtain ⟨n, hn⟩ := List.mem_iff_getElem?.mp hmem
  have := (hc Key n).mpr hn
  rw [h] at this
  exact absurd this (by simp)

theorem internShader_present (Shaders : PerDeviceShaders) (hc : shadersConsistent Shaders)
    (Key : ShaderKey) (h : Key ∈ Shaders.List) :
    (internShader Shaders Key).1 = Shaders ∧
    Shaders.List[(internShader Shaders Key).2]? = some Key := by
  cases hf : Shaders.Map.find Key with
  | none => exact absurd h (not_mem_of_find_none Shaders hc Key hf)
  | some Index =>
    have hI : internShader Shaders Key = (Shaders, Index) := by simp [internShader, hf]
    rw [hI]
    exact ⟨rfl, (hc Key Index).mp hf⟩

theorem internShader_absent (Shaders : PerDeviceShaders) (hc : shadersConsistent Shaders)
    (Key : ShaderKey) (h : Key ∉ Shaders.List) :
    (internShader Shaders Key).1 =
      ⟨Shaders.List ++ [Key], Shaders.Map ++ [(Key, Shaders.List.length)]⟩ ∧
    (internShader Shaders Key).2 = Shaders.List.length := by
  cases hf : Shaders.Map.find Key with
  | none =>
    have hI : internShader Shaders Key =
        (⟨Shaders.List ++ [Key], Shaders.Map ++ [(Key, Shaders.List.length)]⟩,
          Shaders.List.length) := by simp [internShader, hf]
    rw [hI]
    exact ⟨rfl, rfl⟩
  | some Index =>
    have := (hc Key Index).mp hf
    exact absurd (List.mem_iff_getElem?.mpr ⟨Index, this⟩) h

theorem internShader_consistent (Shaders : PerDeviceShaders) (hc : shadersConsistent Shaders)
    (Key : ShaderKey) : shadersConsistent (internShader Shaders Key).1 := by
  by_cases hmem : Key ∈ Shaders.List
  · rw [(internShader_present Shaders hc Key hmem).1]
    exact hc
  · rw [(internShader_absent Shaders hc Key hmem).1]
    intro Key2 Index
    show ShaderIndexMap.find (Shaders.Map ++ [(Key, Shaders.List.length)]) Key2 = some Index ↔
      (Shaders.List ++ [Key])[Index]? = some Key2
    rw [find_append_entry]
    have hget : (Shaders.List ++ [Key])[Index]? = some Key2 ↔
        Shaders.List[Index]? = some Key2 ∨ (Index = Shaders.List.length ∧ Key = Key2) := by
      by_cases hlt : Index < Shaders.List.length
      · rw [List.getElem?_append_left hlt]
        constructor
        · intro h; exact Or.inl h
        · rintro (h | ⟨h, -⟩)
          · exact h
          · omega
      · rw [List.getElem?_append_right (by omega)]
        have hnone : Shaders.List[Index]? = none := List.getElem?_eq_none (by omega)
        rw [hnone]
        by_cases he : Index = Shaders.List.length
        · simp [he]
        · have : Index - Shaders.List.length ≠ 0 := by omega
          obtain ⟨m, hm⟩ := Nat.exists_eq_succ_of_ne_zero this
          simp [hm, he]
    rw [hget]
    cases hf : ShaderIndexMap.find Shaders.Map Key2 with
    | some j =>
      have hj := (hc Key2 j).mp hf
      simp only [Option.some.injEq]
      constructor
      · intro h; subst h; exact Or.inl hj
      · rintro (h | ⟨-, h⟩)
        · have := (hc Key2 Index).mpr h
          rw [hf] at this
          exact Option.some.inj this
        · subst h
          exact absurd (List.mem_iff_getElem?.mpr ⟨j, hj⟩) hmem
    | none =>
      have hno : ∀ n : Nat, Shaders.List[n]? ≠ some Key2 := by
        intro n hn
        have := (hc Key2 n).mpr hn
        rw [hf] at this
        exact absurd this (by simp)
      by_cases hk : Key = Key2
      · simp only [hk, if_true, Option.some.injEq, and_true]
        constructor
        · intro h; exact Or.inr h.symm
        · rintro (h | h)
          · exact absurd h (hno Index)
          · exact h.symm
      · simp only [hk, if_false, and_false, or_false]
        constructor
        · intro h; exact absurd h (by simp)
        · intro h; exact absurd h (hno Index)

theorem internShader_mem (Shaders : PerDeviceShaders) (hc : shadersConsistent Shaders)
    (Key Key2 : ShaderKey) :
    Key2 ∈ (internShader Shaders Key).1.List ↔ Key2 ∈ Shaders.List ∨ Key2 = Key := by
  by_cases hmem : Key ∈ Shaders.List
  · rw [(internShader_present Shaders hc Key hmem).1]
    constructor
    · intro h; exact Or.inl h
    · rintro (h | h)
      · exact h
      · rw [h]; exact hmem
  · rw [(internShader_absent Shaders hc Key hmem).1]
    simp

theorem internShaders_consistent (Keys : List ShaderKey) :
    ∀ Shaders : PerDeviceShaders, shadersConsistent Shaders →
      shadersConsistent (internShaders Shaders Keys).1 := by
  induction Keys with
  | nil => intro Shaders hc; exact hc
  | cons Key Keys ih =>
    intro Shaders hc
    exact ih _ (internShader_consistent Shaders hc Key)

theorem internShaders_mem (Keys : List ShaderKey) :
    ∀ Shaders : PerDeviceShaders, shadersConsistent Shaders → ∀ Key2,
      (Key2 ∈ (internShaders Shaders Keys).1.List ↔ Key2 ∈ Shaders.List ∨ Key2 ∈ Keys) := by
  induction Keys with
  | nil => intro Shaders hc Key2; simp [internShaders]
  | cons Key Keys ih =>
    intro Shaders hc Key2
    show Key2 ∈ (internShaders (internShader Shaders Key).1 Keys).1.List ↔ _
    rw [ih _ (internShader_consistent Shaders hc Key), internShader_mem Shaders hc]
    simp only [List.mem_cons]
    tauto

theorem nodup_of_consistent (Shaders : PerDeviceShaders) (hc : shadersConsistent Shaders) :
    Shaders.List.Nodup := by
  rw [List.nodup_iff_getElem?_ne_getElem?]
  intro i j hij hj heq
  have hjs : Shaders.List[j]? = some Shaders.List[j] := List.getElem?_eq_getElem hj
  have h1 := (hc _ j).mpr hjs
  have h2 := (hc _ i).mpr (heq.trans hjs)
  rw [h1] at h2
  have := Option.some.inj h2
  omega

theorem eq_singleton_of_nodup (l : List ShaderKey) (Key : ShaderKey) (hn : l.Nodup)
    (hall : ∀ x ∈ l, x = Key) (hmem : Key ∈ l) : l = [Key] := by
  cases l with
  | nil => simp at hmem
  | cons a t =>
    have ha : a = Key := hall a (List.mem_cons_self _ _)
    subst ha
    cases t with
    | nil => rfl
    | cons b t2 =>
      have hb : b = a := hall b (List.mem_cons_of_mem _ (List.mem_cons_self _ _))
      subst hb
      simp at hn

/-- C12: the shader dedup index of one backend, starting empty. After any
sequence `Keys` of interning steps: (1) interning a key that is already in the
list changes nothing and returns an index at which the list holds that key,
and interning a key that is not in the list appends it and returns the new
last index; (2) the list has no two equal blobs; (3) the map sends the blob at
index `i` of the list to `i`; (4) every interned blob has exactly one record;
(5) interning one blob any number of times leaves the single record of that
blob. -/
theorem shader_dedup_index (Keys : List ShaderKey) (Key : ShaderKey) :
    (Key ∈ (internShaders ⟨[], []⟩ Keys).1.List →
      (internShader (internShaders ⟨[], []⟩ Keys).1 Key).1 = (internShaders ⟨[], []⟩ Keys).1 ∧
      (internShaders ⟨[], []⟩ Keys).1.List[(internShader (internShaders ⟨[], []⟩ Keys).1 Key).2]?
        = some Key) ∧
    (Key ∉ (internShaders ⟨[], []⟩ Keys).1.List →
      (internShader (internShaders ⟨[], []⟩ Keys).1 Key).1.List =
        (internShaders ⟨[], []⟩ Keys).1.List ++ [Key] ∧
      (internShader (internShaders ⟨[], []⟩ Keys).1 Key).2 =
        (internShaders ⟨[], []⟩ Keys).1.List.length) ∧
    (internShaders ⟨[], []⟩ Keys).1.List.Nodup ∧
    (∀ (i : Nat) (k : ShaderKey), (internShaders ⟨[], []⟩ Keys).1.List[i]? = some k →
      (internShaders ⟨[], []⟩ Keys).1.Map.find k = some i) ∧
    (∀ k ∈ Keys, (internShaders ⟨[], []⟩ Keys).1.List.count k = 1) ∧
    (∀ N : Nat, (internShaders ⟨[], []⟩ (List.replicate (N + 1) Key)).1.List = [Key]) := by
  have hc := internShaders_consistent Keys ⟨[], []⟩ shadersConsistent_empty
  refine ⟨?_, ?_, nodup_of_consistent _ hc, ?_, ?_, ?_⟩
  · intro h
    exact internShader_present _ hc Key h
  · intro h
    have := internShader_absent _ hc Key h
    exact ⟨by rw [this.1], this.2⟩
  · intro i k h
    exact (hc k i).mpr h
  · intro k hk
    apply List.count_eq_one_of_mem (nodup_of_consistent _ hc)
    exact (internShaders_mem Keys ⟨[], []⟩ shadersConsistent_empty k).mpr (Or.inr hk)
  · intro N
    have hcN := internShaders_consistent (List.replicate (N + 1) Key) ⟨[], []⟩
      shadersConsistent_empty
    have hm := internShaders_mem (List.replicate (N + 1) Key) ⟨[], []⟩ shadersConsistent_empty
    apply eq_singleton_of_nodup _ Key (nodup_of_consistent _ hcN)
    · intro x hx
      rcases (hm x).mp hx with h | h
      · simp at h
      · exact (List.mem_replicate.mp h).2
    · exact (hm Key).mpr (Or.inr (List.mem_replicate.mpr ⟨by omega, rfl⟩))

/-- Witness of C12: the blob `[1, 2]` interned three times among other blobs
has one record, and interning it again returns its index 0. -/
theorem shader_dedup_index_witness :
    (internShaders ⟨[], []⟩ [⟨⟨[1, 2]⟩⟩, ⟨⟨[3]⟩⟩, ⟨⟨[1, 2]⟩⟩, ⟨⟨[1, 2]⟩⟩]).1.List.count ⟨⟨[1, 2]⟩⟩
      = 1 ∧
    (internShaders ⟨[], []⟩ (List.replicate (2 + 1) ⟨⟨[1, 2]⟩⟩)).1.List = [⟨⟨[1, 2]⟩⟩] :=
  ⟨(shader_dedup_index [⟨⟨[1, 2]⟩⟩, ⟨⟨[3]⟩⟩, ⟨⟨[1, 2]⟩⟩, ⟨⟨[1, 2]⟩⟩] ⟨⟨[1, 2]⟩⟩).2.2.2.2.1
      ⟨⟨[1, 2]⟩⟩ (by decide),
   (shader_dedup_index [] ⟨⟨[1, 2]⟩⟩).2.2.2.2.2 2⟩

/-! ### Idempotence of `MapHLSLVertexShaderInputs` -/

theorem mapInput_getElem (LongBits : Nat) (st : List Nat × List LogEntry)
    (Input : SPIRVShaderStageInputAttribs) (i : Nat) :
    (mapInput LongBits st Input).1[i]? =
      match (if Input.LocationDecorationOffset = i then parseSemantic LongBits Input.Semantic
        else none) with
      | some Location => if i < st.1.length then some Location else none
      | none => st.1[i]? := by
  unfold mapInput
  cases hp : parseSemantic LongBits Input.Semantic with
  | none => simp
  | some n =>
    by_cases ho : Input.LocationDecorationOffset = i
    · subst ho
      simp [List.getElem?_set]
    · simp [List.getElem?_set, ho]

theorem foldl_mapInput_getElem (LongBits : Nat) (Inputs : List SPIRVShaderStageInputAttribs)
    (i : Nat) :
    ∀ st : List Nat × List LogEntry,
      (Inputs.foldl (mapInput LongBits) st).1[i]? =
        match lastWrite LongBits Inputs i with
        | some Location => if i < st.1.length then some Location else none
        | none => st.1[i]? := by
  induction Inputs with
  | nil => intro st; rfl
  | cons a l ih =>
    intro st
    rw [List.foldl_cons, ih, mapInput_length, mapInput_getElem]
    simp only [lastWrite]
    cases lastWrite LongBits l i with
    | some v => rfl
    | none => rfl

/-- C22: `MapHLSLVertexShaderInputs` is idempotent on the SPIR-V: for every
SPIR-V vector and every list of stage inputs, running the mapping on its own
output leaves that output unchanged. Each word is either untouched or holds
the location of the last accepted input with that offset, which depends on the
semantics only. -/
theorem map_inputs_idempotent (LongBits : Nat) (Inputs : List SPIRVShaderStageInputAttribs)
    (m_SPIRV : List Nat) :
    (MapHLSLVertexShaderInputs LongBits Inputs
      (MapHLSLVertexShaderInputs LongBits Inputs m_SPIRV).1).1 =
    (MapHLSLVertexShaderInputs LongBits Inputs m_SPIRV).1 := by
  apply List.ext_getElem?
  intro i
  have hlen := MapHLSLVertexShaderInputs_length LongBits Inputs m_SPIRV
  have h1 := foldl_mapInput_getElem LongBits Inputs i (m_SPIRV, [])
  have h2 := foldl_mapInput_getElem LongBits Inputs i
    ((MapHLSLVertexShaderInputs LongBits Inputs m_SPIRV).1, [])
  simp only [MapHLSLVertexShaderInputs] at hlen h1 h2 ⊢
  rw [h2]
  cases hw : lastWrite LongBits Inputs i with
  | none => rfl
  | some v =>
    rw [hw] at h1
    simp only [hlen]
    exact h1.symm

/-- Witness of C22: three inputs, two of them with the same offset and one
rejected, on a five-word vector. -/
theorem map_inputs_idempotent_witness :
    (MapHLSLVertexShaderInputs 64
      [⟨"ATTRIB0".toList, 2⟩, ⟨"POSITION".toList, 3⟩, ⟨"ATTRIB1".toList, 2⟩]
      (MapHLSLVertexShaderInputs 64
        [⟨"ATTRIB0".toList, 2⟩, ⟨"POSITION".toList, 3⟩, ⟨"ATTRIB1".toList, 2⟩]
        [7, 7, 7, 7, 7]).1).1 =
    (MapHLSLVertexShaderInputs 64
      [⟨"ATTRIB0".toList, 2⟩, ⟨"POSITION".toList, 3⟩, ⟨"ATTRIB1".toList, 2⟩]
      [7, 7, 7, 7, 7]).1 :=
  map_inputs_idempotent 64 [⟨"ATTRIB0".toList, 2⟩, ⟨"POSITION".toList, 3⟩, ⟨"ATTRIB1".toList, 2⟩]
    [7, 7, 7, 7, 7]

/-! ### Skipped reflection -/

theorem initSPIRV_congr_LoadResources (env : Env) (ShaderCI : ShaderCreateInfo)
    (VkShaderCI : CreateInfo)
    (LoadResources : List Nat → ShaderDesc → Option String → Bool →
      Except String (SPIRVShaderResources × String)) :
    initSPIRV { env with LoadResources := LoadResources } ShaderCI VkShaderCI =
      initSPIRV env ShaderCI VkShaderCI := rfl

/-- C23: when `SHADER_COMPILE_FLAG_SKIP_REFLECTION` is set in `CompileFlags`,
the constructor builds the object exactly when the SPIR-V was obtained
(compiled or copied); the object stores that SPIR-V unchanged, its entry point
is `ShaderCI.EntryPoint` and it has no shader resources; the reflection block
logs nothing and the reflection loader is not used (the outcome is the same
whatever the loader is), for every stage and source language. -/
theorem skipped_reflection (env : Env) (ShaderCI : ShaderCreateInfo) (VkShaderCI : CreateInfo)
    (hskip : ShaderCI.CompileFlags &&& env.SHADER_COMPILE_FLAG_SKIP_REFLECTION ≠ 0) :
    (∀ m_SPIRV, (initSPIRV env ShaderCI VkShaderCI).Result = Except.ok m_SPIRV →
      (ShaderVkImpl.create env ShaderCI VkShaderCI).Result =
        Except.ok ⟨ShaderCI.Desc, m_SPIRV, ShaderCI.EntryPoint, none⟩) ∧
    (∀ e, (initSPIRV env ShaderCI VkShaderCI).Result = Except.error e →
      (ShaderVkImpl.create env ShaderCI VkShaderCI).Result = Except.error e) ∧
    (∀ sh, (ShaderVkImpl.create env ShaderCI VkShaderCI).Result = Except.ok sh →
      sh.m_EntryPoint = ShaderCI.EntryPoint ∧ sh.m_pShaderResources = none ∧
      (initSPIRV env ShaderCI VkShaderCI).Result = Except.ok sh.m_SPIRV) ∧
    (ShaderVkImpl.create env ShaderCI VkShaderCI).Log = (initSPIRV env ShaderCI VkShaderCI).Log ∧
    (∀ LoadResources,
      ShaderVkImpl.create { env with LoadResources := LoadResources } ShaderCI VkShaderCI =
        ShaderVkImpl.create env ShaderCI VkShaderCI) := by
  have hok : ∀ m_SPIRV, (initSPIRV env ShaderCI VkShaderCI).Result = Except.ok m_SPIRV →
      (ShaderVkImpl.create env ShaderCI VkShaderCI).Result =
        Except.ok ⟨ShaderCI.Desc, m_SPIRV, ShaderCI.EntryPoint, none⟩ := by
    intro m_SPIRV h
    rw [(create_of_init env ShaderCI VkShaderCI m_SPIRV h).1,
      loadShaderResources_skipped env ShaderCI m_SPIRV hskip]
  refine ⟨hok, ?_, ?_, ?_, ?_⟩
  · intro e h
    exact (create_of_init_error env ShaderCI VkShaderCI e h).1
  · intro sh hsh
    cases h : (initSPIRV env ShaderCI VkShaderCI).Result with
    | error e =>
      rw [(create_of_init_error env ShaderCI VkShaderCI e h).1] at hsh
      simp at hsh
    | ok v =>
      rw [hok v h] at hsh
      simp only [Except.ok.injEq] at hsh
      subst hsh
      exact ⟨rfl, rfl, rfl⟩
  · cases h : (initSPIRV env ShaderCI VkShaderCI).Result with
    | error e =>
      unfold ShaderVkImpl.create
      simp [h]
    | ok v =>
      rw [(create_of_init env ShaderCI VkShaderCI v h).2.1,
        loadShaderResources_skipped env ShaderCI v hskip]
      simp
  · intro LoadResources
    have hl : ∀ v, loadShaderResources { env with LoadResources := LoadResources } ShaderCI v =
        loadShaderResources env ShaderCI v := by
      intro v
      rw [loadShaderResources_skipped env ShaderCI v hskip,
        loadShaderResources_skipped { env with LoadResources := LoadResources } ShaderCI v hskip]
    unfold ShaderVkImpl.create
    rw [initSPIRV_congr_LoadResources]
    simp only [hl]

/-- Witness of C23: the vertex shader `dxcShaderCI`, with the flag set, in an
environment whose reflection would report the input "ATTRIB3". -/
theorem skipped_reflection_witness :
    (ShaderVkImpl.create attrib3Env dxcShaderCI {}).Result =
      Except.ok ⟨dxcShaderCI.Desc, [119734787, 65536, 0, 0], "main", none⟩ :=
  (skipped_reflection attrib3Env dxcShaderCI {} (by decide)).1 [119734787, 65536, 0, 0] rfl

/-! ### Equivalence of the compiler requests -/

theorem CompileShaderGLSLang_congr (env : Env) (ci1 ci2 : ShaderCreateInfo)
    (VkShaderCI : CreateInfo)
    (hlang : ci1.SourceLanguage = ci2.SourceLanguage)
    (hty : ci1.Desc.ShaderType = ci2.Desc.ShaderType)
    (hmac : ci1.Macros = ci2.Macros)
    (hfac : ci1.pShaderSourceStreamFactory = ci2.pShaderSourceStreamFactory)
    (hHLSL : env.HLSLtoSPIRV ci1 = env.HLSLtoSPIRV ci2)
    (hRead : env.ReadShaderSourceFile ci1 = env.ReadShaderSourceFile ci2)
    (hBuild : env.BuildGLSLSourceString ci1 = env.BuildGLSLSourceString ci2) :
    CompileShaderGLSLang env ci1 VkShaderCI = CompileShaderGLSLang env ci2 VkShaderCI := by
  simp only [CompileShaderGLSLang, glslSourceData, hlang, hHLSL, hRead, hBuild, hty, hmac, hfac]

theorem runCompiler_glslang (env : Env) (ShaderCI : ShaderCreateInfo) (VkShaderCI : CreateInfo)
    (h : ShaderCI.ShaderCompiler = SHADER_COMPILER.DEFAULT ∨
      ShaderCI.ShaderCompiler = SHADER_COMPILER.GLSLANG) :
    runCompiler env ShaderCI VkShaderCI = CompileShaderGLSLang env ShaderCI VkShaderCI ∧
    (selectCompiler ShaderCI VkShaderCI).2 = [] := by
  rcases h with h | h <;> simp [runCompiler, selectCompiler, h]

theorem runCompiler_dxc_unavailable (env : Env) (ShaderCI : ShaderCreateInfo)
    (VkShaderCI : CreateInfo)
    (hdxc : ShaderCI.ShaderCompiler = SHADER_COMPILER.DXC)
    (hnone : VkShaderCI.pDXCompiler = none ∨
      ∃ c, VkShaderCI.pDXCompiler = some c ∧ c.IsLoaded = false) :
    runCompiler env ShaderCI VkShaderCI = CompileShaderGLSLang env ShaderCI VkShaderCI := by
  have hsel := selectCompiler_dxc_unavailable ShaderCI VkShaderCI hdxc hnone
  simp [runCompiler, hsel]

/-- C21: for a shader created from source, with external compilers that do
not read the member `ShaderCompiler` of the creation attributes they are
handed: requesting `SHADER_COMPILER_DXC` while the DX compiler is null or not
loaded gives the same result (the same object with the same SPIR-V, or the
same error) and the same compiler output as requesting
`SHADER_COMPILER_DEFAULT`, and `SHADER_COMPILER_DEFAULT` and
`SHADER_COMPILER_GLSLANG` give the same outcome, log included. -/
theorem compiler_request_equivalence (env : Env) (ShaderCI : ShaderCreateInfo)
    (VkShaderCI : CreateInfo)
    (hsrc : ShaderCI.Source ≠ none ∨ ShaderCI.FilePath ≠ none)
    (hHLSL : ∀ c1 c2, env.HLSLtoSPIRV { ShaderCI with ShaderCompiler := c1 } =
      env.HLSLtoSPIRV { ShaderCI with ShaderCompiler := c2 })
    (hRead : ∀ c1 c2, env.ReadShaderSourceFile { ShaderCI with ShaderCompiler := c1 } =
      env.ReadShaderSourceFile { ShaderCI with ShaderCompiler := c2 })
    (hBuild : ∀ c1 c2, env.BuildGLSLSourceString { ShaderCI with ShaderCompiler := c1 } =
      env.BuildGLSLSourceString { ShaderCI with ShaderCompiler := c2 }) :
    ((VkShaderCI.pDXCompiler = none ∨
        ∃ c, VkShaderCI.pDXCompiler = some c ∧ c.IsLoaded = false) →
      (ShaderVkImpl.create env { ShaderCI with ShaderCompiler := SHADER_COMPILER.DXC }
          VkShaderCI).Result =
        (ShaderVkImpl.create env { ShaderCI with ShaderCompiler := SHADER_COMPILER.DEFAULT }
          VkShaderCI).Result ∧
      (ShaderVkImpl.create env { ShaderCI with ShaderCompiler := SHADER_COMPILER.DXC }
          VkShaderCI).CompilerOutput =
        (ShaderVkImpl.create env { ShaderCI with ShaderCompiler := SHADER_COMPILER.DEFAULT }
          VkShaderCI).CompilerOutput) ∧
    ShaderVkImpl.create env { ShaderCI with ShaderCompiler := SHADER_COMPILER.DEFAULT } VkShaderCI =
      ShaderVkImpl.create env { ShaderCI with ShaderCompiler := SHADER_COMPILER.GLSLANG }
        VkShaderCI := by
  have hgl : ∀ c1 c2 : SHADER_COMPILER,
      CompileShaderGLSLang env { ShaderCI with ShaderCompiler := c1 } VkShaderCI =
        CompileShaderGLSLang env { ShaderCI with ShaderCompiler := c2 } VkShaderCI :=
    fun c1 c2 => CompileShaderGLSLang_congr env _ _ VkShaderCI rfl rfl rfl rfl
      (hHLSL c1 c2) (hRead c1 c2) (hBuild c1 c2)
  have hF := runCompiler_glslang env { ShaderCI with ShaderCompiler := SHADER_COMPILER.DEFAULT }
    VkShaderCI (Or.inl rfl)
  have hG := runCompiler_glslang env { ShaderCI with ShaderCompiler := SHADER_COMPILER.GLSLANG }
    VkShaderCI (Or.inr rfl)
  refine ⟨?_, ?_⟩
  · intro hnone
    have hD := runCompiler_dxc_unavailable env
      { ShaderCI with ShaderCompiler := SHADER_COMPILER.DXC } VkShaderCI rfl hnone
    have hcD := create_source env { ShaderCI with ShaderCompiler := SHADER_COMPILER.DXC }
      VkShaderCI hsrc
    have hcF := create_source env { ShaderCI with ShaderCompiler := SHADER_COMPILER.DEFAULT }
      VkShaderCI hsrc
    have hoD := create_source_output env { ShaderCI with ShaderCompiler := SHADER_COMPILER.DXC }
      VkShaderCI hsrc
    have hoF := create_source_output env
      { ShaderCI with ShaderCompiler := SHADER_COMPILER.DEFAULT } VkShaderCI hsrc
    constructor
    · rw [hcD, hcF, hD, hF.1, hgl SHADER_COMPILER.DXC SHADER_COMPILER.DEFAULT]
      rfl
    · rw [hoD, hoF, hD, hF.1, hgl SHADER_COMPILER.DXC SHADER_COMPILER.DEFAULT]
  · have hiF := initSPIRV_source env { ShaderCI with ShaderCompiler := SHADER_COMPILER.DEFAULT }
      VkShaderCI hsrc
    have hiG := initSPIRV_source env { ShaderCI with ShaderCompiler := SHADER_COMPILER.GLSLANG }
      VkShaderCI hsrc
    have hinit : initSPIRV env { ShaderCI with ShaderCompiler := SHADER_COMPILER.DEFAULT }
        VkShaderCI =
        initSPIRV env { ShaderCI with ShaderCompiler := SHADER_COMPILER.GLSLANG } VkShaderCI := by
      rw [hiF, hiG]
      simp only [compileFromSource, hF.1, hF.2, hG.1, hG.2,
        hgl SHADER_COMPILER.DEFAULT SHADER_COMPILER.GLSLANG]
    unfold ShaderVkImpl.create
    rw [hinit]
    rfl

/-- Witness of C21: the HLSL vertex shader `vertexShaderCI` without a DX
compiler, in the environment `exampleEnv`. -/
theorem compiler_request_equivalence_witness :
    (ShaderVkImpl.create exampleEnv { vertexShaderCI with ShaderCompiler := SHADER_COMPILER.DXC }
        {}).Result =
      (ShaderVkImpl.create exampleEnv
        { vertexShaderCI with ShaderCompiler := SHADER_COMPILER.DEFAULT } {}).Result ∧
    ShaderVkImpl.create exampleEnv
        { vertexShaderCI with ShaderCompiler := SHADER_COMPILER.DEFAULT } {} =
      ShaderVkImpl.create exampleEnv
        { vertexShaderCI with ShaderCompiler := SHADER_COMPILER.GLSLANG } {} :=
  have h := compiler_request_equivalence exampleEnv vertexShaderCI {} (Or.inl (by decide))
    (fun _ _ => rfl) (fun _ _ => rfl) (fun _ _ => rfl)
  ⟨(h.1 (Or.inl rfl)).1, h.2⟩

/-! ### Resource descriptions -/

/-- C24: `ShaderVkImpl::GetResourceDesc`. For every `Index` below the resource
count the output `ResourceDesc` is the description of the resource `Index`,
that resource is the only one accessed and nothing is logged; for every
`Index` at or above the resource count the output keeps the value it had on
entry and no resource is accessed (a development build logs the error
"Resource index (...) is out of range"). -/
theorem get_resource_desc (env : Env) (ResCount : Nat) (GetResource : Nat → ShaderResourceDesc)
    (Index : Nat) (ResourceDesc : ShaderResourceDesc) :
    (Index < ResCount →
      (ShaderVkImpl.GetResourceDesc env ResCount GetResource Index ResourceDesc).1 =
        GetResource Index ∧
      (ShaderVkImpl.GetResourceDesc env ResCount GetResource Index ResourceDesc).2.2 = [Index] ∧
      (ShaderVkImpl.GetResourceDesc env ResCount GetResource Index ResourceDesc).2.1 = []) ∧
    (ResCount ≤ Index →
      (ShaderVkImpl.GetResourceDesc env ResCount GetResource Index ResourceDesc).1 =
        ResourceDesc ∧
      (ShaderVkImpl.GetResourceDesc env ResCount GetResource Index ResourceDesc).2.2 = [] ∧
      (env.DILIGENT_DEVELOPMENT = true →
        (ShaderVkImpl.GetResourceDesc env ResCount GetResource Index ResourceDesc).2.1 =
          [⟨Severity.Error, "Resource index (" ++ toString Index ++ ") is out of range"⟩])) := by
  constructor
  · intro h
    simp [ShaderVkImpl.GetResourceDesc, DEV_CHECK_ERR, h]
  · intro h
    have hn : ¬ Index < ResCount := by omega
    refine ⟨?_, ?_, ?_⟩
    · simp [ShaderVkImpl.GetResourceDesc, hn]
    · simp [ShaderVkImpl.GetResourceDesc, hn]
    · intro hdev
      simp [ShaderVkImpl.GetResourceDesc, DEV_CHECK_ERR, hn, hdev]

/-- Witness of C24: two resources; the index 1 reads the second description,
the index 2 leaves the output as it was. -/
theorem get_resource_desc_witness :
    (ShaderVkImpl.GetResourceDesc exampleEnv 2
      (fun i => if i = 0 then ⟨"g_Tex", 1, 1⟩ else ⟨"g_Buf", 2, 4⟩) 1 ⟨"old", 0, 0⟩).1 =
      ⟨"g_Buf", 2, 4⟩ ∧
    (ShaderVkImpl.GetResourceDesc exampleEnv 2
      (fun i => if i = 0 then ⟨"g_Tex", 1, 1⟩ else ⟨"g_Buf", 2, 4⟩) 2 ⟨"old", 0, 0⟩).1 =
      ⟨"old", 0, 0⟩ ∧
    (ShaderVkImpl.GetResourceDesc exampleEnv 2
      (fun i => if i = 0 then ⟨"g_Tex", 1, 1⟩ else ⟨"g_Buf", 2, 4⟩) 2 ⟨"old", 0, 0⟩).2.2 = [] :=
  ⟨((get_resource_desc exampleEnv 2 (fun i => if i = 0 then ⟨"g_Tex", 1, 1⟩ else ⟨"g_Buf", 2, 4⟩)
      1 ⟨"old", 0, 0⟩).1 (by decide)).1,
   ((get_resource_desc exampleEnv 2 (fun i => if i = 0 then ⟨"g_Tex", 1, 1⟩ else ⟨"g_Buf", 2, 4⟩)
      2 ⟨"old", 0, 0⟩).2 (by decide)).1,
   ((get_resource_desc exampleEnv 2 (fun i => if i = 0 then ⟨"g_Tex", 1, 1⟩ else ⟨"g_Buf", 2, 4⟩)
      2 ⟨"old", 0, 0⟩).2 (by decide)).2.1⟩

end Diligent
